import Mathlib

/-!
Verification development for the ABSURDTTY `tty-mood` crate.

The Rust source computes over `f64`; this embedding models those numbers
exactly, over an arbitrary linear ordered field `α`.  Claims that quantify
over signal collections are stated polymorphically; concrete evaluations
instantiate `α := ℚ` (every `f64` value is a rational, so this loses no
inputs), and the one genuinely irrational computation (the square root in
the steady-rhythm coefficient of variation) is instantiated at `α := ℝ`
with `Real.sqrt`.
-/

/-- Model of `time::OffsetDateTime` restricted to the observations the code
makes of it: the instant in seconds (used for sorting, subtraction and
`as_seconds_f64`), the hour of day (`.hour()`, 0-23) and the ISO weekday
(`.weekday().number_from_monday()`, 1-7). -/
structure Timestamp where
  secs : ℚ
  hour : ℕ
  weekday : ℕ
  deriving DecidableEq

/-- `HistoryEntry` from `src/crates/tty-mood/src/history/entry.rs`. -/
structure HistoryEntry where
  command : String
  full_line : String
  timestamp : Option Timestamp
  duration : Option ℕ
  line_number : ℕ
  deriving DecidableEq

/-- `HistoryEntry::command_name`: first whitespace-separated word, falling
back to the whole command for an empty split. -/
def HistoryEntry.command_name (e : HistoryEntry) : String :=
  ((e.command.split Char.isWhitespace).filter (fun w => w != "")).headD e.command

/-- `HistoryEntry::is_known_short_command`. -/
def HistoryEntry.is_known_short_command (cmd : String) : Bool :=
  cmd == "ls" || cmd == "cd" || cmd == "cp" || cmd == "mv" || cmd == "rm" ||
  cmd == "cat" || cmd == "man" || cmd == "top" || cmd == "ps" || cmd == "df" ||
  cmd == "du" || cmd == "ln" || cmd == "vi" || cmd == "fg" || cmd == "bg" ||
  cmd == "id" || cmd == "wc" || cmd == "nl" || cmd == "od" || cmd == "tr" ||
  cmd == "xd" || cmd == "bc" || cmd == "dc" || cmd == "go" || cmd == "oc" ||
  cmd == "gh"

/-- `HistoryEntry::looks_like_typo`: short command name not on the known
list.  Rust `str::len` is a byte length, hence `utf8ByteSize`. -/
def HistoryEntry.looks_like_typo (e : HistoryEntry) : Bool :=
  e.command_name.utf8ByteSize ≤ 3 && !(HistoryEntry.is_known_short_command e.command_name)

/-- `HistoryEntry::hour`. -/
def HistoryEntry.hour (e : HistoryEntry) : Option ℕ :=
  e.timestamp.map Timestamp.hour

/-- `HistoryEntry::is_late_night`: hour outside 4..22. -/
def HistoryEntry.is_late_night (e : HistoryEntry) : Bool :=
  (e.hour.map (fun h => !(4 ≤ h && h < 22))).getD false

/-- `HistoryEntry::is_early_morning`: hour in 5..=7. -/
def HistoryEntry.is_early_morning (e : HistoryEntry) : Bool :=
  (e.hour.map (fun h => 5 ≤ h && h ≤ 7)).getD false

/-- `HistoryEntry::is_lunch_time`: hour in 12..=13. -/
def HistoryEntry.is_lunch_time (e : HistoryEntry) : Bool :=
  (e.hour.map (fun h => 12 ≤ h && h ≤ 13)).getD false

/-- `HistoryEntry::is_weekend`: weekday ≥ 6. -/
def HistoryEntry.is_weekend (e : HistoryEntry) : Bool :=
  (e.timestamp.map (fun t => decide (6 ≤ t.weekday))).getD false

/-- `Signal` from `src/crates/tty-mood/src/signals/mod.rs`. -/
structure Signal (α : Type) where
  id : String
  score : α
  note : Option String
  deriving DecidableEq

/-- `Signal::new`: the score is clamped into [0, 1]
(`score.clamp(0.0, 1.0)`). -/
def Signal.new {α : Type} [LinearOrderedField α] (id : String) (score : α) : Signal α :=
  ⟨id, min (max score 0) 1, none⟩

/-- `Signal::with_note`. -/
def Signal.with_note {α : Type} (s : Signal α) (n : String) : Signal α :=
  { s with note := some n }

/-- `SignalCollection` from `signals/mod.rs`: a list of signals in insertion
order. -/
structure SignalCollection (α : Type) where
  signals : List (Signal α)
  deriving DecidableEq

/-- `SignalCollection::get`: first signal with the given id. -/
def SignalCollection.get {α : Type} (c : SignalCollection α) (id : String) : Option (Signal α) :=
  c.signals.find? (fun s => s.id == id)

/-- `SignalCollection::score`: score of the signal with the given id,
defaulting to 0 when absent. -/
def SignalCollection.score {α : Type} [LinearOrderedField α]
    (c : SignalCollection α) (id : String) : α :=
  ((c.get id).map Signal.score).getD 0

/-- `SignalCollection::strong_signals`: all signals with score ≥ 0.7
(`Signal::is_strong`). -/
def SignalCollection.strong_signals {α : Type} [LinearOrderedField α]
    (c : SignalCollection α) : List (Signal α) :=
  c.signals.filter (fun s => decide ((7 : α)/10 ≤ s.score))

/-- `SignalCollection::merge`: appends the other collection's signals. -/
def SignalCollection.merge {α : Type} (c other : SignalCollection α) : SignalCollection α :=
  ⟨c.signals ++ other.signals⟩

/-- `MoodId` from `src/crates/absurd-lexicon/src/moods.rs`, in source
declaration order. -/
inductive MoodId where
  | FeralProductivity
  | Exhausted
  | Methodical
  | ChaoticNeutral
  | BureaucraticZen
  | AmbientDrift
  | RecursiveDoubt
  | EmergencyMode
  | Neutral
  deriving DecidableEq, Fintype

/-- `Mood` from `moods.rs`. -/
structure Mood (α : Type) where
  id : MoodId
  confidence : α
  notes : List String
  deriving DecidableEq

/-- `Mood::new`: confidence clamped into [0, 1]. -/
def Mood.new {α : Type} [LinearOrderedField α] (id : MoodId) (confidence : α) : Mood α :=
  ⟨id, min (max confidence 0) 1, []⟩

/-- `Mood::neutral`. -/
def Mood.neutral {α : Type} [LinearOrderedField α] : Mood α :=
  Mood.new MoodId.Neutral 0

/-- `Mood::with_note`: appends one note. -/
def Mood.with_note {α : Type} (m : Mood α) (n : String) : Mood α :=
  { m with notes := m.notes ++ [n] }

/-- `score_feral_productivity` from `src/crates/tty-mood/src/mood.rs`. -/
def score_feral_productivity {α : Type} [LinearOrderedField α]
    (signals : SignalCollection α) : α :=
  let cadence_high := signals.score "cadence_high"
  let diversity_high := signals.score "command_diversity_high"
  let late_night := signals.score "late_night_orbit"
  let burst := signals.score "burst_pattern"
  let base := cadence_high * (35/100) + diversity_high * (25/100)
    + late_night * (2/10) + burst * (2/10)
  let typo_penalty := signals.score "typo_rate_high" * (3/10)
  max (base - typo_penalty) 0

/-- `score_exhausted` from `mood.rs`. -/
def score_exhausted {α : Type} [LinearOrderedField α]
    (signals : SignalCollection α) : α :=
  let cadence_low := signals.score "cadence_low"
  let typo_high := signals.score "typo_rate_high"
  let typo_medium := signals.score "typo_rate_medium"
  let repeats := signals.score "repeat_commands"
  let late_night := signals.score "late_night_orbit"
  let typo_score := typo_high * (8/10) + typo_medium * (4/10)
  cadence_low * (3/10) + typo_score * (3/10) + repeats * (2/10) + late_night * (2/10)

/-- `score_methodical` from `mood.rs`. -/
def score_methodical {α : Type} [LinearOrderedField α]
    (signals : SignalCollection α) : α :=
  let rhythm := signals.score "steady_rhythm"
  let typo_low := signals.score "typo_rate_low"
  let build_cycle := signals.score "build_cycle"
  let git_heavy := signals.score "git_heavy"
  let workflow_bonus := (build_cycle + git_heavy) * (1/2)
  let chaos_penalty := signals.score "burst_pattern" * (2/10)
    + signals.score "context_switching" * (2/10)
  max (rhythm * (4/10) + typo_low * (2/10) + workflow_bonus * (2/10) - chaos_penalty) 0

/-- `score_chaotic_neutral` from `mood.rs`. -/
def score_chaotic_neutral {α : Type} [LinearOrderedField α]
    (signals : SignalCollection α) : α :=
  let diversity := signals.score "command_diversity_high"
  let burst := signals.score "burst_pattern"
  let context_switch := signals.score "context_switching"
  let time_spread := signals.score "time_spread"
  let base := diversity * (3/10) + burst * (25/100)
    + context_switch * (25/100) + time_spread * (2/10)
  let order_penalty := signals.score "steady_rhythm" * (3/10)
  max (base - order_penalty) 0

/-- `score_bureaucratic_zen` from `mood.rs`. -/
def score_bureaucratic_zen {α : Type} [LinearOrderedField α]
    (signals : SignalCollection α) : α :=
  let rhythm := signals.score "steady_rhythm"
  let git_heavy := signals.score "git_heavy"
  let typo_low := signals.score "typo_rate_low"
  let weekday := signals.score "weekday_bound"
  let base := rhythm * (3/10) + git_heavy * (3/10) + typo_low * (2/10) + weekday * (2/10)
  let chaos_penalty := signals.score "late_night_orbit" * (2/10)
  max (base - chaos_penalty) 0

/-- `score_ambient_drift` from `mood.rs`. -/
def score_ambient_drift {α : Type} [LinearOrderedField α]
    (signals : SignalCollection α) : α :=
  let diversity_low := signals.score "command_diversity_low"
  let cadence_low := signals.score "cadence_low"
  let status_checks := signals.score "status_check_loop"
  diversity_low * (35/100) + cadence_low * (35/100) + status_checks * (3/10)

/-- `score_recursive_doubt` from `mood.rs`. -/
def score_recursive_doubt {α : Type} [LinearOrderedField α]
    (signals : SignalCollection α) : α :=
  let status_loop := signals.score "status_check_loop"
  let repeats := signals.score "repeat_commands"
  let corrections := signals.score "correction_pattern"
  let git_heavy := signals.score "git_heavy"
  let base := status_loop * (35/100) + repeats * (25/100) + corrections * (2/10)
  let git_bonus : α := if 1/2 < status_loop ∧ 1/2 < git_heavy then 2/10 else 0
  min (base + git_bonus + git_heavy * (1/10)) 1

/-- The `indicator_count` computed inside `score_emergency_mode`
(`mood.rs` lines 181-184): how many of the four gating conditions hold. -/
def emergency_indicator_count {α : Type} [LinearOrderedField α]
    (signals : SignalCollection α) : ℕ :=
  (if (3 : α)/10 < signals.score "burst_pattern" then 1 else 0)
  + (if (3 : α)/10 < signals.score "typo_rate_high" then 1 else 0)
  + (if (2 : α)/10 < signals.score "correction_pattern" then 1 else 0)
  + (if (1 : α)/2 < signals.score "cadence_high" then 1 else 0)

/-- `score_emergency_mode` from `mood.rs`. -/
def score_emergency_mode {α : Type} [LinearOrderedField α]
    (signals : SignalCollection α) : α :=
  let burst := signals.score "burst_pattern"
  let typo_high := signals.score "typo_rate_high"
  let corrections := signals.score "correction_pattern"
  let cadence_high := signals.score "cadence_high"
  let base := burst * (3/10) + typo_high * (3/10)
    + corrections * (2/10) + cadence_high * (2/10)
  if emergency_indicator_count signals < 2 then 0 else base

/-- One step of Rust `Iterator::max_by` on `partial_cmp` of scores: keeps the
accumulator only when it is strictly greater, so later elements win ties. -/
def mood_step {α : Type} [LinearOrderedField α]
    (acc x : MoodId × α) : MoodId × α :=
  if x.2 < acc.2 then acc else x

/-- The `scores` vector built at the top of `detect_mood` (`mood.rs` lines
11-20), in source order. -/
def mood_scores {α : Type} [LinearOrderedField α]
    (signals : SignalCollection α) : List (MoodId × α) :=
  [(MoodId.FeralProductivity, score_feral_productivity signals),
   (MoodId.Exhausted, score_exhausted signals),
   (MoodId.Methodical, score_methodical signals),
   (MoodId.ChaoticNeutral, score_chaotic_neutral signals),
   (MoodId.BureaucraticZen, score_bureaucratic_zen signals),
   (MoodId.AmbientDrift, score_ambient_drift signals),
   (MoodId.RecursiveDoubt, score_recursive_doubt signals),
   (MoodId.EmergencyMode, score_emergency_mode signals)]

/-- The `(best_mood, best_score)` pair of `detect_mood` (`mood.rs` lines
22-26): `Iterator::max_by` on the scores, with the empty-iterator default
`(Neutral, 0.0)` of `unwrap_or`. -/
def best_mood {α : Type} [LinearOrderedField α]
    (signals : SignalCollection α) : MoodId × α :=
  match mood_scores signals with
  | [] => (MoodId.Neutral, 0)
  | h :: t => t.foldl mood_step h

/-- `detect_mood` from `mood.rs`. -/
def detect_mood {α : Type} [LinearOrderedField α]
    (signals : SignalCollection α) : Mood α :=
  if (best_mood signals).2 < 3/10 then
    Mood.neutral.with_note "Insufficient signal strength for classification"
  else
    signals.strong_signals.foldl
      (fun m s => match s.note with
        | some n => m.with_note n
        | none => m)
      (Mood.new (best_mood signals).1 (best_mood signals).2)

/-- The fixed candidate enumeration order of `detect_mood`. -/
def moodOrder : List MoodId :=
  [MoodId.FeralProductivity, MoodId.Exhausted, MoodId.Methodical,
   MoodId.ChaoticNeutral, MoodId.BureaucraticZen, MoodId.AmbientDrift,
   MoodId.RecursiveDoubt, MoodId.EmergencyMode]

/-- Position of a mood in the candidate enumeration order. -/
def moodIdx : MoodId → ℕ
  | MoodId.FeralProductivity => 0
  | MoodId.Exhausted => 1
  | MoodId.Methodical => 2
  | MoodId.ChaoticNeutral => 3
  | MoodId.BureaucraticZen => 4
  | MoodId.AmbientDrift => 5
  | MoodId.RecursiveDoubt => 6
  | MoodId.EmergencyMode => 7
  | MoodId.Neutral => 8

/-- The scoring function `detect_mood` uses for each candidate. -/
def cand_score {α : Type} [LinearOrderedField α]
    (m : MoodId) (signals : SignalCollection α) : α :=
  match m with
  | MoodId.FeralProductivity => score_feral_productivity signals
  | MoodId.Exhausted => score_exhausted signals
  | MoodId.Methodical => score_methodical signals
  | MoodId.ChaoticNeutral => score_chaotic_neutral signals
  | MoodId.BureaucraticZen => score_bureaucratic_zen signals
  | MoodId.AmbientDrift => score_ambient_drift signals
  | MoodId.RecursiveDoubt => score_recursive_doubt signals
  | MoodId.EmergencyMode => score_emergency_mode signals
  | MoodId.Neutral => 0

/-- Mirror of the `signals_with` test helper: a collection built with
`Signal::new` from id/score pairs. -/
def signals_of {α : Type} [LinearOrderedField α]
    (l : List (String × α)) : SignalCollection α :=
  ⟨l.map (fun p => Signal.new p.1 p.2)⟩

/-- The C1 input collection
{cadence_low: 0.8, typo_rate_high: 0.7, repeat_commands: 0.5}. -/
def exhausted_signals : SignalCollection ℚ :=
  signals_of [("cadence_low", 8/10), ("typo_rate_high", 7/10), ("repeat_commands", 1/2)]

/-- The C4 input collection {burst_pattern: 0.9}. -/
def burst_only_signals : SignalCollection ℚ :=
  signals_of [("burst_pattern", 9/10)]

/-- Monotonicity of a mood scoring function in the signal with id `i`:
whenever two collections of in-range scores agree on the score of every
other id and the score of `i` does not decrease, the mood score does not
decrease. -/
def MonotoneIn {α : Type} [LinearOrderedField α]
    (f : SignalCollection α → α) (i : String) : Prop :=
  ∀ c₁ c₂ : SignalCollection α,
    (∀ s ∈ c₁.signals, 0 ≤ s.score) →
    (∀ s ∈ c₂.signals, 0 ≤ s.score) →
    (∀ j, j ≠ i → c₁.score j = c₂.score j) →
    c₁.score i ≤ c₂.score i →
    f c₁ ≤ f c₂

/-- C6 witness input: a smaller `cadence_low` score. -/
def mono_lo_signals : SignalCollection ℚ :=
  signals_of [("cadence_low", 3/10)]

/-- C6 witness input: a larger `cadence_low` score. -/
def mono_hi_signals : SignalCollection ℚ :=
  signals_of [("cadence_low", 6/10)]

/-- C8 witness input: Exhausted and AmbientDrift both score 0.35. -/
def tie_signals : SignalCollection ℚ :=
  signals_of [("cadence_low", 1), ("repeat_commands", 1/4)]

/-- C9 witness input: one strong signal (score 0.7) carrying a note, while
every mood candidate scores below 0.3. -/
def weak_strong_note_signals : SignalCollection ℚ :=
  ⟨[Signal.with_note (Signal.new "late_night_orbit" (7/10)) "orbit note"]⟩

/-- Stand-in for Rust float `format!` display text: the numeric digits of a
float are not modelled (no claim depends on them), only the fixed text
around them. -/
def float_note (txt : String) : String := txt

/-- `format!("{:02}:00", h)` for an hour bucket. -/
def fmt_hour (h : ℕ) : String :=
  (if h < 10 then "0" else "") ++ toString h ++ ":00"

/-- Insert into a sorted list of instants (ascending). -/
def insertSorted (x : ℚ) : List ℚ → List ℚ
  | [] => [x]
  | y :: ys => if x ≤ y then x :: y :: ys else y :: insertSorted x ys

/-- Insertion sort, modelling `Vec::sort` on timestamps (`OffsetDateTime`
orders by instant; only the instants are read afterwards). -/
def sortQ : List ℚ → List ℚ
  | [] => []
  | x :: xs => insertSorted x (sortQ xs)

/-- The timestamps present in a record list, as instants in seconds, in
list order (`filter_map(|e| e.timestamp)`). -/
def entry_times (entries : List HistoryEntry) : List ℚ :=
  entries.filterMap (fun e => e.timestamp.map Timestamp.secs)

/-- Minimum of a list of instants (`iter().min()`); the default is never
used by callers, which guard on length. -/
def listMinQ : List ℚ → ℚ
  | [] => 0
  | x :: xs => xs.foldl min x

/-- Maximum of a list of instants (`iter().max()`). -/
def listMaxQ : List ℚ → ℚ
  | [] => 0
  | x :: xs => xs.foldl max x

/-- `FrequencySignals::commands_per_hour`. -/
def commands_per_hour (entries : List HistoryEntry) : ℚ :=
  if (entry_times entries).length < 2 then 0
  else
    let first := listMinQ (entry_times entries)
    let last := listMaxQ (entry_times entries)
    let duration_hours := (last - first) / 3600
    if duration_hours < 1/10 then 0
    else ((entry_times entries).length : ℚ) / duration_hours

/-- Differences of adjacent elements (`windows(2)` with subtraction). -/
def gaps : List ℚ → List ℚ
  | [] => []
  | [_] => []
  | x :: y :: rest => (y - x) :: gaps (y :: rest)

/-- The sorted timestamp list used by `detect_bursts` and
`detect_steady_rhythm`. -/
def sorted_times (entries : List HistoryEntry) : List ℚ :=
  sortQ (entry_times entries)

/-- `FrequencySignals::detect_bursts`: fraction of adjacent intervals
shorter than 10 seconds. -/
def detect_bursts (entries : List HistoryEntry) : ℚ :=
  if (sorted_times entries).length < 3 then 0
  else
    let intervals := gaps (sorted_times entries)
    let burst_count := (intervals.filter (fun i => decide (i < 10))).length
    if intervals.length = 0 then 0
    else (burst_count : ℚ) / (intervals.length : ℚ)

/-- The qualifying gaps of `detect_steady_rhythm`: adjacent gaps of the
sorted timestamps strictly between 0 and 3600 seconds. -/
def rhythm_intervals (entries : List HistoryEntry) : List ℚ :=
  (gaps (sorted_times entries)).filter (fun i => decide (0 < i) && decide (i < 3600))

/-- Mean of the qualifying gaps. -/
def rhythm_mean (entries : List HistoryEntry) : ℚ :=
  (rhythm_intervals entries).sum / ((rhythm_intervals entries).length : ℚ)

/-- Population variance of the qualifying gaps. -/
def rhythm_variance (entries : List HistoryEntry) : ℚ :=
  ((rhythm_intervals entries).map (fun i => (i - rhythm_mean entries) ^ 2)).sum
    / ((rhythm_intervals entries).length : ℚ)

/-- `FrequencySignals::detect_steady_rhythm`, parameterised by the square
root used for the standard deviation (`Real.sqrt` at `α := ℝ` models
`f64::sqrt`): requires at least 5 timestamps and 3 qualifying gaps, then
scores `1 − min(cv, 1)` clamped into [0, 1] with
`cv = sqrt(variance)/mean`. -/
def detect_steady_rhythm {α : Type} [LinearOrderedField α] (sqrt : ℚ → α)
    (entries : List HistoryEntry) : α :=
  if (sorted_times entries).length < 5 then 0
  else if (rhythm_intervals entries).length < 3 then 0
  else
    let cv : α := sqrt (rhythm_variance entries) / ((rhythm_mean entries : ℚ) : α)
    min (max (1 - min cv 1) 0) 1

/-- The `cadence_high` conditional of `FrequencySignals::analyze`. -/
def cadence_high_block {α : Type} [LinearOrderedField α]
    (entries : List HistoryEntry) : List (Signal α) :=
  if 30 < commands_per_hour entries then
    [Signal.with_note
      (Signal.new "cadence_high"
        ((min (max ((commands_per_hour entries - 30) / 50) 0) 1 : ℚ) : α))
      (float_note " commands/hour")]
  else []

/-- The `cadence_low` conditional of `FrequencySignals::analyze`. -/
def cadence_low_block {α : Type} [LinearOrderedField α]
    (entries : List HistoryEntry) : List (Signal α) :=
  if commands_per_hour entries < 5 ∧ 0 < commands_per_hour entries then
    [Signal.with_note
      (Signal.new "cadence_low" ((1 - commands_per_hour entries / 5 : ℚ) : α))
      (float_note " commands/hour")]
  else []

/-- The `burst_pattern` conditional of `FrequencySignals::analyze`. -/
def burst_block {α : Type} [LinearOrderedField α]
    (entries : List HistoryEntry) : List (Signal α) :=
  if 3/10 < detect_bursts entries then
    [Signal.new "burst_pattern" ((detect_bursts entries : ℚ) : α)]
  else []

/-- The `steady_rhythm` conditional of `FrequencySignals::analyze`. -/
def rhythm_block {α : Type} [LinearOrderedField α] (sqrt : ℚ → α)
    (entries : List HistoryEntry) : List (Signal α) :=
  if 1/2 < detect_steady_rhythm sqrt entries then
    [Signal.new "steady_rhythm" (detect_steady_rhythm sqrt entries)]
  else []

/-- `FrequencySignals::analyze`. -/
def frequency_analyze {α : Type} [LinearOrderedField α] (sqrt : ℚ → α)
    (entries : List HistoryEntry) : SignalCollection α :=
  if entries.isEmpty then ⟨[]⟩
  else
    ⟨cadence_high_block entries ++ cadence_low_block entries
      ++ burst_block entries ++ rhythm_block sqrt entries⟩

/-- The `with_timestamps` sub-list of `TemporalSignals::analyze`. -/
def with_ts (entries : List HistoryEntry) : List HistoryEntry :=
  entries.filter (fun e => e.timestamp.isSome)

/-- The `late_night_orbit` conditional of `TemporalSignals::analyze`,
applied to the timestamped records. -/
def late_block {α : Type} [LinearOrderedField α]
    (wts : List HistoryEntry) : List (Signal α) :=
  let late_frac : α := ((wts.filter HistoryEntry.is_late_night).length : α) / (wts.length : α)
  if 1/10 < late_frac then
    [Signal.with_note (Signal.new "late_night_orbit" (min late_frac 1))
      (float_note "% of commands after 22:00")]
  else []

/-- The `early_morning_surge` conditional of `TemporalSignals::analyze`. -/
def early_block {α : Type} [LinearOrderedField α]
    (wts : List HistoryEntry) : List (Signal α) :=
  let early_frac : α := ((wts.filter HistoryEntry.is_early_morning).length : α) / (wts.length : α)
  if 1/10 < early_frac then
    [Signal.with_note (Signal.new "early_morning_surge" (min early_frac 1))
      (float_note "% of commands before 07:00")]
  else []

/-- The `lunch_void` conditional of `TemporalSignals::analyze`. -/
def lunch_block {α : Type} [LinearOrderedField α]
    (wts : List HistoryEntry) : List (Signal α) :=
  let lunch_frac : α := ((wts.filter HistoryEntry.is_lunch_time).length : α) / (wts.length : α)
  if lunch_frac < 2/100 ∧ 20 < wts.length then [Signal.new "lunch_void" (8/10)]
  else []

/-- The weekend fraction of the timestamped records. -/
def weekend_frac {α : Type} [LinearOrderedField α] (wts : List HistoryEntry) : α :=
  ((wts.filter HistoryEntry.is_weekend).length : α) / (wts.length : α)

/-- The `weekend_warrior` / `weekday_bound` conditional of
`TemporalSignals::analyze`: an if/else-if pair. -/
def weekend_block {α : Type} [LinearOrderedField α]
    (wts : List HistoryEntry) : List (Signal α) :=
  if (4 : α)/10 < weekend_frac wts then
    [Signal.with_note (Signal.new "weekend_warrior" ((weekend_frac wts - 28/100) * 2))
      "Above-average weekend activity"]
  else if weekend_frac wts < (15 : α)/100 ∧ 50 < wts.length then
    [Signal.with_note (Signal.new "weekday_bound" ((28/100 - weekend_frac wts) * 2))
      "Below-average weekend activity"]
  else []

/-- Entries falling into a given hour bucket
(`hour_counts[hour] += 1`; hours ≥ 24 cannot arise from `.hour()`). -/
def hour_count (wts : List HistoryEntry) (h : ℕ) : ℕ :=
  (wts.filter (fun e => e.hour == some h)).length

/-- The modal hour buckets (`peak_hours`). -/
def peak_hour_list (wts : List HistoryEntry) : List ℕ :=
  (List.range 24).filter (fun h =>
    decide (hour_count wts h = ((List.range 24).map (hour_count wts)).foldr max 0)
      && decide (0 < hour_count wts h))

/-- The total of the 24 hour buckets. -/
def hour_total (wts : List HistoryEntry) : ℕ :=
  ((List.range 24).map (hour_count wts)).sum

/-- The modal bucket size (`hour_counts.iter().max().unwrap_or(&0)`). -/
def hour_max (wts : List HistoryEntry) : ℕ :=
  ((List.range 24).map (hour_count wts)).foldr max 0

/-- The `peak_hours` conditional of `analyze_hour_distribution`. -/
def peak_block {α : Type} [LinearOrderedField α]
    (wts : List HistoryEntry) : List (Signal α) :=
  if ¬(peak_hour_list wts).isEmpty ∧
      (15/100 : α) < (hour_max wts : α) / (hour_total wts : α) then
    [Signal.with_note (Signal.new "peak_hours" ((hour_max wts : α) / (hour_total wts : α)))
      ("Most active: " ++ String.intercalate ", " ((peak_hour_list wts).map fmt_hour))]
  else []

/-- The `time_concentrated` / `time_spread` conditional of
`analyze_hour_distribution`. -/
def concentration_block {α : Type} [LinearOrderedField α]
    (wts : List HistoryEntry) : List (Signal α) :=
  let active_hours :=
    (((List.range 24).map (hour_count wts)).filter (fun c => decide (0 < c))).length
  let concentration : α := 1 - (active_hours : α) / 24
  if 6/10 < concentration then [Signal.new "time_concentrated" concentration]
  else if concentration < 3/10 then [Signal.new "time_spread" (1 - concentration)]
  else []

/-- `TemporalSignals::analyze_hour_distribution`. -/
def analyze_hour_distribution {α : Type} [LinearOrderedField α]
    (wts : List HistoryEntry) : List (Signal α) :=
  if hour_total wts = 0 then []
  else peak_block wts ++ concentration_block wts

/-- `TemporalSignals::analyze`. -/
def temporal_analyze {α : Type} [LinearOrderedField α]
    (entries : List HistoryEntry) : SignalCollection α :=
  if entries.isEmpty then ⟨[]⟩
  else if (with_ts entries).isEmpty then ⟨[]⟩
  else
    ⟨late_block (with_ts entries) ++ early_block (with_ts entries)
      ++ lunch_block (with_ts entries) ++ weekend_block (with_ts entries)
      ++ analyze_hour_distribution (with_ts entries)⟩

/-- Adjacent pairs (`windows(2)`). -/
def adjacent_pairs {β : Type} : List β → List (β × β)
  | [] => []
  | [_] => []
  | x :: y :: rest => (x, y) :: adjacent_pairs (y :: rest)

/-- `ErrorSignals::detect_repeats`: fraction of adjacent pairs with the
same full command. -/
def detect_repeats {α : Type} [LinearOrderedField α]
    (entries : List HistoryEntry) : α :=
  if entries.length < 2 then 0
  else
    let repeat_count :=
      ((adjacent_pairs entries).filter (fun p => p.1.command == p.2.command)).length
    (repeat_count : α) / ((entries.length - 1 : ℕ) : α)

/-- `ErrorSignals::simple_distance`: Hamming distance for equal-length
strings, length difference otherwise (on chars). -/
def simple_distance (a b : String) : ℕ :=
  if a.toList.length ≠ b.toList.length then
    max a.toList.length b.toList.length - min a.toList.length b.toList.length
  else
    ((a.toList.zip b.toList).filter (fun p => p.1 != p.2)).length

/-- `ErrorSignals::is_likely_correction`: byte lengths within 2 and
distance in 1..=2. -/
def is_likely_correction (cmd1 cmd2 : String) : Bool :=
  if 2 < max cmd1.utf8ByteSize cmd2.utf8ByteSize - min cmd1.utf8ByteSize cmd2.utf8ByteSize then
    false
  else
    decide (0 < simple_distance cmd1 cmd2) && decide (simple_distance cmd1 cmd2 ≤ 2)

/-- `ErrorSignals::detect_corrections`. -/
def detect_corrections {α : Type} [LinearOrderedField α]
    (entries : List HistoryEntry) : α :=
  if entries.length < 2 then 0
  else
    let correction_count :=
      ((adjacent_pairs entries).filter
        (fun p => is_likely_correction p.1.command p.2.command)).length
    (correction_count : α) / ((entries.length - 1 : ℕ) : α)

/-- The fixed status-command list of `detect_status_checks`. -/
def status_commands : List String :=
  ["ls", "git", "pwd", "cat", "head", "tail", "stat", "file"]

/-- `ErrorSignals::detect_status_checks`.  The per-command `HashMap` counts
are modelled as counts over the fixed status-command list; the maximum over
the map's values equals the maximum over these counts (absent commands
count 0). -/
def detect_status_checks {α : Type} [LinearOrderedField α]
    (entries : List HistoryEntry) : α :=
  let status_count :=
    (entries.filter (fun e => status_commands.contains e.command_name)).length
  let max_single :=
    status_commands.foldl
      (fun acc cmd => max acc (entries.filter (fun e => e.command_name == cmd)).length) 0
  let frac : α := (status_count : α) / (entries.length : α)
  let repetition_bonus : α :=
    if 5 < max_single then (max_single : α) / (entries.length : α) * (1/2) else 0
  min (frac + repetition_bonus) 1

/-- The typo fraction of `ErrorSignals::analyze`. -/
def typo_frac {α : Type} [LinearOrderedField α] (entries : List HistoryEntry) : α :=
  ((entries.filter HistoryEntry.looks_like_typo).length : α) / (entries.length : α)

/-- The typo-rate if/else-if chain of `ErrorSignals::analyze`. -/
def typo_block {α : Type} [LinearOrderedField α]
    (entries : List HistoryEntry) : List (Signal α) :=
  if (1 : α)/10 < typo_frac entries then
    [Signal.with_note (Signal.new "typo_rate_high" (min (typo_frac entries * 5) 1))
      (float_note "% possible typos")]
  else if (3 : α)/100 < typo_frac entries then
    [Signal.new "typo_rate_medium" (typo_frac entries * 10)]
  else if 50 < entries.length then
    [Signal.new "typo_rate_low" (1 - typo_frac entries * 10)]
  else []

/-- The `repeat_commands` conditional of `ErrorSignals::analyze`. -/
def repeat_block {α : Type} [LinearOrderedField α]
    (entries : List HistoryEntry) : List (Signal α) :=
  if (2 : α)/10 < (detect_repeats entries : α) then
    [Signal.with_note (Signal.new "repeat_commands" (detect_repeats entries))
      "Same commands executed multiple times"]
  else []

/-- The `correction_pattern` conditional of `ErrorSignals::analyze`. -/
def correction_block {α : Type} [LinearOrderedField α]
    (entries : List HistoryEntry) : List (Signal α) :=
  if (1 : α)/10 < (detect_corrections entries : α) then
    [Signal.new "correction_pattern" (detect_corrections entries)]
  else []

/-- The `status_check_loop` conditional of `ErrorSignals::analyze`. -/
def status_block {α : Type} [LinearOrderedField α]
    (entries : List HistoryEntry) : List (Signal α) :=
  if (3 : α)/10 < (detect_status_checks entries : α) then
    [Signal.with_note (Signal.new "status_check_loop" (detect_status_checks entries))
      "Frequent status verification"]
  else []

/-- `ErrorSignals::analyze`. -/
def errors_analyze {α : Type} [LinearOrderedField α]
    (entries : List HistoryEntry) : SignalCollection α :=
  if entries.isEmpty then ⟨[]⟩
  else
    ⟨typo_block entries ++ repeat_block entries
      ++ correction_block entries ++ status_block entries⟩

/-- The fixed git allow-list of `analyze_tool_categories`. -/
def git_commands : List String := ["git", "gh", "hub", "tig", "lazygit"]

/-- The fixed editor allow-list. -/
def editor_commands : List String :=
  ["vim", "nvim", "nano", "micro", "code", "emacs", "hx"]

/-- The fixed build-tool allow-list. -/
def build_commands : List String :=
  ["cargo", "make", "npm", "yarn", "pnpm", "go", "rustc", "gcc", "cmake"]

/-- The fixed system-administration allow-list. -/
def system_commands : List String :=
  ["systemctl", "journalctl", "dmesg", "htop", "top", "ps", "kill"]

/-- The fixed package-management allow-list. -/
def package_commands : List String :=
  ["pacman", "apt", "yay", "brew", "dnf", "pip", "cargo"]

/-- Number of records whose command name is in an allow-list. -/
def category_count (cmds : List String) (entries : List HistoryEntry) : ℕ :=
  (entries.filter (fun e => cmds.contains e.command_name)).length

/-- The git category ratio `git_count / total` of
`analyze_tool_categories`. -/
def git_frac {α : Type} [LinearOrderedField α] (entries : List HistoryEntry) : α :=
  (category_count git_commands entries : α) / (entries.length : α)

/-- The `git_heavy` conditional of `analyze_tool_categories`. -/
def git_block {α : Type} [LinearOrderedField α]
    (entries : List HistoryEntry) : List (Signal α) :=
  if 15/100 < (git_frac entries : α) then
    [Signal.with_note (Signal.new "git_heavy" (min (git_frac entries * 3) 1))
      (toString (category_count git_commands entries) ++ " git operations")]
  else []

/-- The `editor_focused` conditional. -/
def editor_block {α : Type} [LinearOrderedField α]
    (entries : List HistoryEntry) : List (Signal α) :=
  let frac : α := (category_count editor_commands entries : α) / (entries.length : α)
  if 1/10 < frac then [Signal.new "editor_focused" (min (frac * 4) 1)]
  else []

/-- The `build_cycle` conditional. -/
def build_block {α : Type} [LinearOrderedField α]
    (entries : List HistoryEntry) : List (Signal α) :=
  let frac : α := (category_count build_commands entries : α) / (entries.length : α)
  if 1/10 < frac then [Signal.new "build_cycle" (min (frac * 4) 1)]
  else []

/-- The `system_admin` conditional. -/
def system_block {α : Type} [LinearOrderedField α]
    (entries : List HistoryEntry) : List (Signal α) :=
  let frac : α := (category_count system_commands entries : α) / (entries.length : α)
  if 1/10 < frac then [Signal.new "system_admin" (min (frac * 4) 1)]
  else []

/-- The `package_operations` conditional. -/
def package_block {α : Type} [LinearOrderedField α]
    (entries : List HistoryEntry) : List (Signal α) :=
  let frac : α := (category_count package_commands entries : α) / (entries.length : α)
  if 1/10 < frac then [Signal.new "package_operations" (min (frac * 4) 1)]
  else []

/-- `DiversitySignals::analyze_tool_categories`: the five category
conditionals in source order. -/
def analyze_tool_categories {α : Type} [LinearOrderedField α]
    (entries : List HistoryEntry) : List (Signal α) :=
  git_block entries ++ editor_block entries ++ build_block entries
    ++ system_block entries ++ package_block entries

/-- The command names of a record list. -/
def command_names (entries : List HistoryEntry) : List String :=
  entries.map HistoryEntry.command_name

/-- Occurrences of one command name. -/
def name_count (entries : List HistoryEntry) (cmd : String) : ℕ :=
  (command_names entries).count cmd

/-- The dominating command of `detect_tool_fixation`
(`counts.iter().max_by_key(...)`).  The `HashMap` iteration order leaves
the choice among tied commands unspecified; the model takes the earliest
first occurrence, which fixes the name but not the count, and only the
count reaches a score. -/
def top_command (entries : List HistoryEntry) : Option (String × ℕ) :=
  (command_names entries).foldl
    (fun acc cmd =>
      match acc with
      | none => some (cmd, name_count entries cmd)
      | some (c, n) =>
        if n < name_count entries cmd then some (cmd, name_count entries cmd)
        else some (c, n))
    none

/-- `DiversitySignals::detect_tool_fixation`. -/
def detect_tool_fixation {α : Type} [LinearOrderedField α]
    (entries : List HistoryEntry) : Option (String × α) :=
  match top_command entries with
  | none => none
  | some (cmd, cnt) =>
    let frac : α := (cnt : α) / (entries.length : α)
    if 4/10 < frac then some (cmd, frac) else none

/-- `DiversitySignals::detect_context_switching`. -/
def detect_context_switching {α : Type} [LinearOrderedField α]
    (entries : List HistoryEntry) : α :=
  let cd_count := (entries.filter (fun e => e.command_name == "cd")).length
  if entries.length < 10 then 0
  else min ((cd_count : α) / (entries.length : α) * 5) 1

/-- The diversity-ratio if/else-if of `DiversitySignals::analyze`
(`HashSet` size modelled as the number of distinct command names). -/
def diversity_block {α : Type} [LinearOrderedField α]
    (entries : List HistoryEntry) : List (Signal α) :=
  let unique := (command_names entries).dedup
  let diversity_frac : α := (unique.length : α) / (entries.length : α)
  if 1/2 < diversity_frac then
    [Signal.with_note (Signal.new "command_diversity_high" diversity_frac)
      (toString unique.length ++ " unique commands")]
  else if diversity_frac < 2/10 ∧ 20 < entries.length then
    [Signal.with_note (Signal.new "command_diversity_low" (1 - diversity_frac))
      "Limited command variety"]
  else []

/-- The `tool_fixation` conditional of `DiversitySignals::analyze`. -/
def fixation_block {α : Type} [LinearOrderedField α]
    (entries : List HistoryEntry) : List (Signal α) :=
  match (detect_tool_fixation entries : Option (String × α)) with
  | some (tool, score) =>
    [Signal.with_note (Signal.new "tool_fixation" score) ("Focused on: " ++ tool)]
  | none => []

/-- The `context_switching` conditional of `DiversitySignals::analyze`. -/
def context_block {α : Type} [LinearOrderedField α]
    (entries : List HistoryEntry) : List (Signal α) :=
  if (3 : α)/10 < (detect_context_switching entries : α) then
    [Signal.new "context_switching" (detect_context_switching entries)]
  else []

/-- `DiversitySignals::analyze`. -/
def diversity_analyze {α : Type} [LinearOrderedField α]
    (entries : List HistoryEntry) : SignalCollection α :=
  if entries.isEmpty then ⟨[]⟩
  else
    ⟨diversity_block entries ++ fixation_block entries
      ++ context_block entries ++ analyze_tool_categories entries⟩

/-- The top-level `analyze` of `signals/mod.rs`: merges the four detector
collections in source order. -/
def signals_analyze {α : Type} [LinearOrderedField α] (sqrt : ℚ → α)
    (entries : List HistoryEntry) : SignalCollection α :=
  if entries.isEmpty then ⟨[]⟩
  else
    ((((⟨[]⟩ : SignalCollection α).merge (frequency_analyze sqrt entries)).merge
      (temporal_analyze entries)).merge (errors_analyze entries)).merge
      (diversity_analyze entries)

/-- A record with only a command. -/
def mkEntry (cmd : String) : HistoryEntry := ⟨cmd, "", none, none, 0⟩

/-- A record with a command and a timestamp instant (midday, midweek). -/
def mkEntryAt (cmd : String) (secs : ℚ) : HistoryEntry :=
  ⟨cmd, "", some ⟨secs, 12, 3⟩, none, 0⟩

/-- C2 counterexample input: 8 records, 1 of them git — ratio 0.125 lies in
(0.1, 0.15]. -/
def c2_entries : List HistoryEntry :=
  [mkEntry "git", mkEntry "alpha", mkEntry "beta", mkEntry "gamma",
   mkEntry "delta", mkEntry "epsilon", mkEntry "zeta", mkEntry "eta"]

/-- C2 witness input: 2 git records out of 4 — ratio 0.5 > 0.15. -/
def c2_git_entries : List HistoryEntry :=
  [mkEntry "git", mkEntry "gh", mkEntry "ls", mkEntry "cd"]

/-- C3 counterexample input: 4 timestamped records with 3 qualifying gaps. -/
def c3_entries : List HistoryEntry :=
  [mkEntryAt "a" 0, mkEntryAt "b" 10, mkEntryAt "c" 20, mkEntryAt "d" 30]

/-- C3 witness input: 5 timestamped records with perfectly steady gaps. -/
def c3_steady_entries : List HistoryEntry :=
  [mkEntryAt "a" 0, mkEntryAt "b" 30, mkEntryAt "c" 60,
   mkEntryAt "d" 90, mkEntryAt "e" 120]

/-- The real square root applied to an exact rational, modelling
`f64::sqrt` in the idealised real semantics. -/
noncomputable def sqrtQR : ℚ → ℝ := fun q => Real.sqrt (q : ℝ)

set_option maxRecDepth 8000

/-- C1 counterexample: on the collection
{cadence_low: 0.8, typo_rate_high: 0.7, repeat_commands: 0.5} the winner
is `Exhausted` as claimed, but the confidence is not 0.53: the claim's own
expression 0.3·0.8 + 0.3·(0.8·0.7) + 0.2·0.5 + 0.2·0 evaluates to 0.508. -/
theorem c1_counterexample :
    (detect_mood exhausted_signals).id = MoodId.Exhausted ∧
    (detect_mood exhausted_signals).confidence ≠ 53/100 ∧
    (detect_mood exhausted_signals).confidence = 127/250 := by
  with_unfolding_all decide

/-- C1 (amended): for the collection
{cadence_low: 0.8, typo_rate_high: 0.7, repeat_commands: 0.5},
`detect_mood` returns winner `Exhausted` with confidence exactly
0.3·0.8 + 0.3·(0.8·0.7) + 0.2·0.5 + 0.2·0 = 0.508. -/
theorem c1_exhausted_amended :
    (detect_mood exhausted_signals).id = MoodId.Exhausted ∧
    (detect_mood exhausted_signals).confidence
      = (3/10) * (8/10) + (3/10) * ((8/10) * (7/10)) + (2/10) * (1/2) + (2/10) * 0 := by
  with_unfolding_all decide

/-- C4: when fewer than two of the four gating indicators
{burst > 0.3, typo_high > 0.3, correction > 0.2, cadence_high > 0.5} hold,
the EmergencyMode candidate score is exactly 0 regardless of the weighted
sum. -/
theorem c4_emergency_gate {α : Type} [LinearOrderedField α]
    (signals : SignalCollection α)
    (h : emergency_indicator_count signals < 2) :
    score_emergency_mode signals = 0 := by
  simp only [score_emergency_mode]
  exact if_pos h

/-- C4 witness: the collection {burst_pattern: 0.9} has a single gating
indicator, and its EmergencyMode score is 0. -/
theorem c4_witness :
    emergency_indicator_count burst_only_signals < 2 ∧
    score_emergency_mode burst_only_signals = 0 :=
  ⟨by with_unfolding_all decide,
   c4_emergency_gate burst_only_signals (by with_unfolding_all decide)⟩

/-- `mood_step` folding returns the initial accumulator or one of the list
elements. -/
theorem mood_fold_mem {α : Type} [LinearOrderedField α]
    (l : List (MoodId × α)) (init : MoodId × α) :
    l.foldl mood_step init = init ∨ l.foldl mood_step init ∈ l := by
  induction l generalizing init with
  | nil => exact Or.inl rfl
  | cons x xs ih =>
    rw [List.foldl_cons]
    rcases ih (mood_step init x) with h | h
    · rw [h]
      unfold mood_step
      split_ifs
      · exact Or.inl rfl
      · exact Or.inr (List.mem_cons_self x xs)
    · exact Or.inr (List.mem_cons_of_mem x h)

/-- When every element scores strictly below the accumulator, the
`mood_step` fold keeps the accumulator. -/
theorem mood_fold_all_lt {α : Type} [LinearOrderedField α]
    (l : List (MoodId × α)) (init : MoodId × α)
    (h : ∀ q ∈ l, q.2 < init.2) :
    l.foldl mood_step init = init := by
  induction l with
  | nil => rfl
  | cons x xs ih =>
    rw [List.foldl_cons]
    have hx : mood_step init x = init := by
      unfold mood_step
      exact if_pos (h x (List.mem_cons_self x xs))
    rw [hx]
    exact ih fun q hq => h q (List.mem_cons_of_mem x hq)

/-- The `mood_step` fold returns the last element attaining the maximum:
if everything before `p` scores at most `p.2` and everything after scores
strictly below, the fold returns `p`. -/
theorem mood_fold_last {α : Type} [LinearOrderedField α]
    (init p : MoodId × α) (l₁ l₂ : List (MoodId × α))
    (hle : ∀ q ∈ init :: l₁, q.2 ≤ p.2) (hlt : ∀ q ∈ l₂, q.2 < p.2) :
    (l₁ ++ p :: l₂).foldl mood_step init = p := by
  have hmid : (l₁.foldl mood_step init).2 ≤ p.2 := by
    rcases mood_fold_mem l₁ init with h | h
    · rw [h]
      exact hle init (List.mem_cons_self _ _)
    · exact hle _ (List.mem_cons_of_mem _ h)
  rw [List.foldl_append, List.foldl_cons]
  have hstep : mood_step (l₁.foldl mood_step init) p = p := by
    unfold mood_step
    exact if_neg (not_lt.2 hmid)
  rw [hstep]
  exact mood_fold_all_lt l₂ p hlt

/-- `best_mood` is one of the eight candidates paired with its candidate
score. -/
theorem best_mood_spec {α : Type} [LinearOrderedField α] (c : SignalCollection α) :
    (best_mood c).1 ∈ moodOrder ∧ (best_mood c).2 = cand_score (best_mood c).1 c := by
  have e : best_mood c =
      ([(MoodId.Exhausted, score_exhausted c),
        (MoodId.Methodical, score_methodical c),
        (MoodId.ChaoticNeutral, score_chaotic_neutral c),
        (MoodId.BureaucraticZen, score_bureaucratic_zen c),
        (MoodId.AmbientDrift, score_ambient_drift c),
        (MoodId.RecursiveDoubt, score_recursive_doubt c),
        (MoodId.EmergencyMode, score_emergency_mode c)]).foldl mood_step
        (MoodId.FeralProductivity, score_feral_productivity c) := rfl
  rcases mood_fold_mem
      [(MoodId.Exhausted, score_exhausted c),
       (MoodId.Methodical, score_methodical c),
       (MoodId.ChaoticNeutral, score_chaotic_neutral c),
       (MoodId.BureaucraticZen, score_bureaucratic_zen c),
       (MoodId.AmbientDrift, score_ambient_drift c),
       (MoodId.RecursiveDoubt, score_recursive_doubt c),
       (MoodId.EmergencyMode, score_emergency_mode c)]
      (MoodId.FeralProductivity, score_feral_productivity c) with h | h
  · rw [e, h]
    exact ⟨by simp [moodOrder], rfl⟩
  · simp only [List.mem_cons, List.not_mem_nil, or_false] at h
    rcases h with h | h | h | h | h | h | h <;> rw [e, h] <;> exact ⟨by simp [moodOrder], rfl⟩

/-- The note-appending fold of `detect_mood` changes neither the mood id nor
the confidence. -/
theorem note_fold_preserves {α : Type} (l : List (Signal α)) (m : Mood α) :
    (l.foldl (fun m s => match s.note with | some n => m.with_note n | none => m) m).id
      = m.id ∧
    (l.foldl (fun m s => match s.note with | some n => m.with_note n | none => m) m).confidence
      = m.confidence := by
  induction l generalizing m with
  | nil => exact ⟨rfl, rfl⟩
  | cons x xs ih =>
    rw [List.foldl_cons]
    rcases ih (match x.note with | some n => m.with_note n | none => m) with ⟨h1, h2⟩
    constructor
    · rw [h1]
      cases x.note <;> rfl
    · rw [h2]
      cases x.note <;> rfl

/-- C5: for every signal collection whose scores all lie in [0,1] (as
`Signal::new` guarantees), `detect_mood` returns a confidence in [0,1] and
an id drawn from the nine enumerated mood states, even though a raw
weighted sum (e.g. Exhausted's maximum 1.06) can exceed 1 — `Mood::new`
clamps it. -/
theorem c5_confidence_bounds {α : Type} [LinearOrderedField α]
    (c : SignalCollection α)
    (h : ∀ s ∈ c.signals, 0 ≤ s.score ∧ s.score ≤ 1) :
    0 ≤ (detect_mood c).confidence ∧ (detect_mood c).confidence ≤ 1 ∧
    (detect_mood c).id ∈
      [MoodId.FeralProductivity, MoodId.Exhausted, MoodId.Methodical,
       MoodId.ChaoticNeutral, MoodId.BureaucraticZen, MoodId.AmbientDrift,
       MoodId.RecursiveDoubt, MoodId.EmergencyMode, MoodId.Neutral] := by
  obtain ⟨hmem, -⟩ := best_mood_spec c
  unfold detect_mood
  split_ifs with hlt
  · refine ⟨?_, ?_, ?_⟩
    · show 0 ≤ min (max (0:α) 0) 1
      rw [max_self, min_eq_left zero_le_one]
    · show min (max (0:α) 0) 1 ≤ 1
      exact min_le_right _ _
    · show MoodId.Neutral ∈ _
      simp
  · obtain ⟨hid, hconf⟩ :=
      note_fold_preserves (SignalCollection.strong_signals c)
        (Mood.new (best_mood c).1 (best_mood c).2)
    refine ⟨?_, ?_, ?_⟩
    · rw [hconf]
      exact le_min (le_max_right _ _) zero_le_one
    · rw [hconf]
      exact min_le_right _ _
    · rw [hid]
      exact List.mem_append_left _ hmem

/-- C5 witness: the bound and membership hold at a concrete in-range
collection. -/
theorem c5_witness :
    0 ≤ (detect_mood exhausted_signals).confidence ∧
    (detect_mood exhausted_signals).confidence ≤ 1 ∧
    (detect_mood exhausted_signals).id ∈
      [MoodId.FeralProductivity, MoodId.Exhausted, MoodId.Methodical,
       MoodId.ChaoticNeutral, MoodId.BureaucraticZen, MoodId.AmbientDrift,
       MoodId.RecursiveDoubt, MoodId.EmergencyMode, MoodId.Neutral] :=
  c5_confidence_bounds exhausted_signals (by with_unfolding_all decide)

/-- C9: when every candidate scores strictly below 0.3, `detect_mood`
returns the Neutral mood whose notes are exactly the single fixed string —
the notes of strong signals are not appended on this path. -/
theorem c9_below_threshold {α : Type} [LinearOrderedField α]
    (c : SignalCollection α)
    (h : ∀ m ∈ moodOrder, cand_score m c < 3/10) :
    detect_mood c
      = ⟨MoodId.Neutral, 0, ["Insufficient signal strength for classification"]⟩ := by
  obtain ⟨hmem, hsc⟩ := best_mood_spec c
  have hlt : (best_mood c).2 < 3/10 := by
    rw [hsc]
    exact h _ hmem
  unfold detect_mood
  rw [if_pos hlt]
  show Mood.with_note (Mood.new MoodId.Neutral 0) _ = _
  unfold Mood.new Mood.with_note
  rw [max_self, min_eq_left zero_le_one]
  rfl

/-- C9 witness: a collection with one strong signal (score 0.7, with a
note) whose candidates all score below 0.3 yields the Neutral mood with
exactly the fixed note; the strong signal's own note is dropped. -/
theorem c9_witness :
    (∀ m ∈ moodOrder, cand_score m weak_strong_note_signals < 3/10) ∧
    detect_mood weak_strong_note_signals
      = ⟨MoodId.Neutral, 0, ["Insufficient signal strength for classification"]⟩ ∧
    (SignalCollection.strong_signals weak_strong_note_signals).length = 1 :=
  ⟨by with_unfolding_all decide,
   c9_below_threshold weak_strong_note_signals (by with_unfolding_all decide),
   by with_unfolding_all decide⟩

/-- C8: when two or more candidates tie at the maximal score and that score
is at least 0.3, `detect_mood` returns the tied candidate occurring latest
in the fixed enumeration order (Rust `Iterator::max_by` keeps the last
maximum). -/
theorem c8_tie_break_last {α : Type} [LinearOrderedField α]
    (c : SignalCollection α) (m : MoodId)
    (hm : m ∈ moodOrder)
    (hmax : ∀ x ∈ moodOrder, cand_score x c ≤ cand_score m c)
    (hlate : ∀ x ∈ moodOrder, moodIdx m < moodIdx x → cand_score x c < cand_score m c)
    (hconf : (3 : α)/10 ≤ cand_score m c)
    (htie : ∃ x ∈ moodOrder, x ≠ m ∧ cand_score x c = cand_score m c) :
    (detect_mood c).id = m := by
  clear htie
  have e : best_mood c =
      ([(MoodId.Exhausted, score_exhausted c),
        (MoodId.Methodical, score_methodical c),
        (MoodId.ChaoticNeutral, score_chaotic_neutral c),
        (MoodId.BureaucraticZen, score_bureaucratic_zen c),
        (MoodId.AmbientDrift, score_ambient_drift c),
        (MoodId.RecursiveDoubt, score_recursive_doubt c),
        (MoodId.EmergencyMode, score_emergency_mode c)]).foldl mood_step
        (MoodId.FeralProductivity, score_feral_productivity c) := rfl
  have hbest : best_mood c = (m, cand_score m c) := by
    simp only [moodOrder, List.mem_cons, List.not_mem_nil, or_false] at hm
    rcases hm with rfl | rfl | rfl | rfl | rfl | rfl | rfl | rfl
    · rw [e]
      exact mood_fold_all_lt _ _ (by
        intro q hq
        simp only [List.mem_cons, List.not_mem_nil, or_false] at hq
        rcases hq with rfl | rfl | rfl | rfl | rfl | rfl | rfl
        · exact hlate MoodId.Exhausted (by decide) (by decide)
        · exact hlate MoodId.Methodical (by decide) (by decide)
        · exact hlate MoodId.ChaoticNeutral (by decide) (by decide)
        · exact hlate MoodId.BureaucraticZen (by decide) (by decide)
        · exact hlate MoodId.AmbientDrift (by decide) (by decide)
        · exact hlate MoodId.RecursiveDoubt (by decide) (by decide)
        · exact hlate MoodId.EmergencyMode (by decide) (by decide))
    · rw [e]
      exact mood_fold_last
        (MoodId.FeralProductivity, score_feral_productivity c)
        (MoodId.Exhausted, score_exhausted c)
        []
        [(MoodId.Methodical, score_methodical c),
         (MoodId.ChaoticNeutral, score_chaotic_neutral c),
         (MoodId.BureaucraticZen, score_bureaucratic_zen c),
         (MoodId.AmbientDrift, score_ambient_drift c),
         (MoodId.RecursiveDoubt, score_recursive_doubt c),
         (MoodId.EmergencyMode, score_emergency_mode c)]
        (by
          intro q hq
          simp only [List.mem_cons, List.not_mem_nil, or_false] at hq
          rcases hq with rfl
          exact hmax MoodId.FeralProductivity (by decide))
        (by
          intro q hq
          simp only [List.mem_cons, List.not_mem_nil, or_false] at hq
          rcases hq with rfl | rfl | rfl | rfl | rfl | rfl
          · exact hlate MoodId.Methodical (by decide) (by decide)
          · exact hlate MoodId.ChaoticNeutral (by decide) (by decide)
          · exact hlate MoodId.BureaucraticZen (by decide) (by decide)
          · exact hlate MoodId.AmbientDrift (by decide) (by decide)
          · exact hlate MoodId.RecursiveDoubt (by decide) (by decide)
          · exact hlate MoodId.EmergencyMode (by decide) (by decide))
    · rw [e]
      exact mood_fold_last
        (MoodId.FeralProductivity, score_feral_productivity c)
        (MoodId.Methodical, score_methodical c)
        [(MoodId.Exhausted, score_exhausted c)]
        [(MoodId.ChaoticNeutral, score_chaotic_neutral c),
         (MoodId.BureaucraticZen, score_bureaucratic_zen c),
         (MoodId.AmbientDrift, score_ambient_drift c),
         (MoodId.RecursiveDoubt, score_recursive_doubt c),
         (MoodId.EmergencyMode, score_emergency_mode c)]
        (by
          intro q hq
          simp only [List.mem_cons, List.not_mem_nil, or_false] at hq
          rcases hq with rfl | rfl
          · exact hmax MoodId.FeralProductivity (by decide)
          · exact hmax MoodId.Exhausted (by decide))
        (by
          intro q hq
          simp only [List.mem_cons, List.not_mem_nil, or_false] at hq
          rcases hq with rfl | rfl | rfl | rfl | rfl
          · exact hlate MoodId.ChaoticNeutral (by decide) (by decide)
          · exact hlate MoodId.BureaucraticZen (by decide) (by decide)
          · exact hlate MoodId.AmbientDrift (by decide) (by decide)
          · exact hlate MoodId.RecursiveDoubt (by decide) (by decide)
          · exact hlate MoodId.EmergencyMode (by decide) (by decide))
    · rw [e]
      exact mood_fold_last
        (MoodId.FeralProductivity, score_feral_productivity c)
        (MoodId.ChaoticNeutral, score_chaotic_neutral c)
        [(MoodId.Exhausted, score_exhausted c),
         (MoodId.Methodical, score_methodical c)]
        [(MoodId.BureaucraticZen, score_bureaucratic_zen c),
         (MoodId.AmbientDrift, score_ambient_drift c),
         (MoodId.RecursiveDoubt, score_recursive_doubt c),
         (MoodId.EmergencyMode, score_emergency_mode c)]
        (by
          intro q hq
          simp only [List.mem_cons, List.not_mem_nil, or_false] at hq
          rcases hq with rfl | rfl | rfl
          · exact hmax MoodId.FeralProductivity (by decide)
          · exact hmax MoodId.Exhausted (by decide)
          · exact hmax MoodId.Methodical (by decide))
        (by
          intro q hq
          simp only [List.mem_cons, List.not_mem_nil, or_false] at hq
          rcases hq with rfl | rfl | rfl | rfl
          · exact hlate MoodId.BureaucraticZen (by decide) (by decide)
          · exact hlate MoodId.AmbientDrift (by decide) (by decide)
          · exact hlate MoodId.RecursiveDoubt (by decide) (by decide)
          · exact hlate MoodId.EmergencyMode (by decide) (by decide))
    · rw [e]
      exact mood_fold_last
        (MoodId.FeralProductivity, score_feral_productivity c)
        (MoodId.BureaucraticZen, score_bureaucratic_zen c)
        [(MoodId.Exhausted, score_exhausted c),
         (MoodId.Methodical, score_methodical c),
         (MoodId.ChaoticNeutral, score_chaotic_neutral c)]
        [(MoodId.AmbientDrift, score_ambient_drift c),
         (MoodId.RecursiveDoubt, score_recursive_doubt c),
         (MoodId.EmergencyMode, score_emergency_mode c)]
        (by
          intro q hq
          simp only [List.mem_cons, List.not_mem_nil, or_false] at hq
          rcases hq with rfl | rfl | rfl | rfl
          · exact hmax MoodId.FeralProductivity (by decide)
          · exact hmax MoodId.Exhausted (by decide)
          · exact hmax MoodId.Methodical (by decide)
          · exact hmax MoodId.ChaoticNeutral (by decide))
        (by
          intro q hq
          simp only [List.mem_cons, List.not_mem_nil, or_false] at hq
          rcases hq with rfl | rfl | rfl
          · exact hlate MoodId.AmbientDrift (by decide) (by decide)
          · exact hlate MoodId.RecursiveDoubt (by decide) (by decide)
          · exact hlate MoodId.EmergencyMode (by decide) (by decide))
    · rw [e]
      exact mood_fold_last
        (MoodId.FeralProductivity, score_feral_productivity c)
        (MoodId.AmbientDrift, score_ambient_drift c)
        [(MoodId.Exhausted, score_exhausted c),
         (MoodId.Methodical, score_methodical c),
         (MoodId.ChaoticNeutral, score_chaotic_neutral c),
         (MoodId.BureaucraticZen, score_bureaucratic_zen c)]
        [(MoodId.RecursiveDoubt, score_recursive_doubt c),
         (MoodId.EmergencyMode, score_emergency_mode c)]
        (by
          intro q hq
          simp only [List.mem_cons, List.not_mem_nil, or_false] at hq
          rcases hq with rfl | rfl | rfl | rfl | rfl
          · exact hmax MoodId.FeralProductivity (by decide)
          · exact hmax MoodId.Exhausted (by decide)
          · exact hmax MoodId.Methodical (by decide)
          · exact hmax MoodId.ChaoticNeutral (by decide)
          · exact hmax MoodId.BureaucraticZen (by decide))
        (by
          intro q hq
          simp only [List.mem_cons, List.not_mem_nil, or_false] at hq
          rcases hq with rfl | rfl
          · exact hlate MoodId.RecursiveDoubt (by decide) (by decide)
          · exact hlate MoodId.EmergencyMode (by decide) (by decide))
    · rw [e]
      exact mood_fold_last
        (MoodId.FeralProductivity, score_feral_productivity c)
        (MoodId.RecursiveDoubt, score_recursive_doubt c)
        [(MoodId.Exhausted, score_exhausted c),
         (MoodId.Methodical, score_methodical c),
         (MoodId.ChaoticNeutral, score_chaotic_neutral c),
         (MoodId.BureaucraticZen, score_bureaucratic_zen c),
         (MoodId.AmbientDrift, score_ambient_drift c)]
        [(MoodId.EmergencyMode, score_emergency_mode c)]
        (by
          intro q hq
          simp only [List.mem_cons, List.not_mem_nil, or_false] at hq
          rcases hq with rfl | rfl | rfl | rfl | rfl | rfl
          · exact hmax MoodId.FeralProductivity (by decide)
          · exact hmax MoodId.Exhausted (by decide)
          · exact hmax MoodId.Methodical (by decide)
          · exact hmax MoodId.ChaoticNeutral (by decide)
          · exact hmax MoodId.BureaucraticZen (by decide)
          · exact hmax MoodId.AmbientDrift (by decide))
        (by
          intro q hq
          simp only [List.mem_cons, List.not_mem_nil, or_false] at hq
          rcases hq with rfl
          exact hlate MoodId.EmergencyMode (by decide) (by decide))
    · rw [e]
      exact mood_fold_last
        (MoodId.FeralProductivity, score_feral_productivity c)
        (MoodId.EmergencyMode, score_emergency_mode c)
        [(MoodId.Exhausted, score_exhausted c),
         (MoodId.Methodical, score_methodical c),
         (MoodId.ChaoticNeutral, score_chaotic_neutral c),
         (MoodId.BureaucraticZen, score_bureaucratic_zen c),
         (MoodId.AmbientDrift, score_ambient_drift c),
         (MoodId.RecursiveDoubt, score_recursive_doubt c)]
        []
        (by
          intro q hq
          simp only [List.mem_cons, List.not_mem_nil, or_false] at hq
          rcases hq with rfl | rfl | rfl | rfl | rfl | rfl | rfl
          · exact hmax MoodId.FeralProductivity (by decide)
          · exact hmax MoodId.Exhausted (by decide)
          · exact hmax MoodId.Methodical (by decide)
          · exact hmax MoodId.ChaoticNeutral (by decide)
          · exact hmax MoodId.BureaucraticZen (by decide)
          · exact hmax MoodId.AmbientDrift (by decide)
          · exact hmax MoodId.RecursiveDoubt (by decide))
        (by
          intro q hq
          simp only [List.not_mem_nil] at hq)
  obtain ⟨hid, -⟩ :=
    note_fold_preserves (SignalCollection.strong_signals c)
      (Mood.new (best_mood c).1 (best_mood c).2)
  unfold detect_mood
  rw [hbest, if_neg (not_lt.2 hconf)]
  rw [hbest] at hid
  exact hid

/-- C8 witness: with {cadence_low: 1, repeat_commands: 0.25}, Exhausted and
AmbientDrift tie at 0.35 and the later candidate AmbientDrift wins. -/
theorem c8_witness : (detect_mood tie_signals).id = MoodId.AmbientDrift :=
  c8_tie_break_last tie_signals MoodId.AmbientDrift (by decide)
    (by with_unfolding_all decide)
    (by with_unfolding_all decide)
    (by with_unfolding_all decide)
    ⟨MoodId.Exhausted, by decide, by decide, by with_unfolding_all decide⟩

/-- A 0/1 indicator is monotone under implication of its condition. -/
theorem ite_one_le_ite_one {p q : Prop} [Decidable p] [Decidable q] (h : p → q) :
    (if p then 1 else 0) ≤ (if q then (1 : ℕ) else 0) := by
  split_ifs with h1 h2
  · exact le_rfl
  · exact absurd (h h1) h2
  · exact Nat.zero_le _
  · exact le_rfl

/-- Every lookup in a collection of nonnegative signal scores is
nonnegative (missing ids default to 0). -/
theorem collection_score_nonneg {α : Type} [LinearOrderedField α]
    (c : SignalCollection α) (j : String)
    (h : ∀ s ∈ c.signals, 0 ≤ s.score) : 0 ≤ c.score j := by
  unfold SignalCollection.score SignalCollection.get
  cases hf : c.signals.find? (fun s => s.id == j) with
  | none => simp
  | some s =>
    simp only [Option.map_some', Option.getD_some]
    exact h s (List.mem_of_find?_eq_some hf)

/-- The EmergencyMode gate is monotone: a larger indicator count and a
larger nonnegative base give a larger gated score. -/
theorem emergency_mono_aux {α : Type} [LinearOrderedField α]
    (k₁ k₂ : ℕ) (x₁ x₂ : α) (hk : k₁ ≤ k₂) (hx : x₁ ≤ x₂) (hx2 : 0 ≤ x₂) :
    (if k₁ < 2 then (0 : α) else x₁) ≤ (if k₂ < 2 then 0 else x₂) := by
  by_cases ha : k₁ < 2
  · rw [if_pos ha]
    by_cases hb : k₂ < 2
    · rw [if_pos hb]
    · rw [if_neg hb]
      exact hx2
  · rw [if_neg ha]
    have hb : ¬ (k₂ < 2) := fun hlt => ha (Nat.lt_of_le_of_lt hk hlt)
    rw [if_neg hb]
    exact hx

set_option maxHeartbeats 2000000 in
/-- C6: every mood scoring function is monotone in each signal it reads
with positive weight, over collections of nonnegative scores: raising that
signal's score while all other ids keep their scores never decreases the
mood's computed score.  This covers the max(·,0) floors, the min(·,1)
caps, the RecursiveDoubt threshold bonus and the EmergencyMode gate. -/
theorem c6_monotonicity {α : Type} [LinearOrderedField α] :
    MonotoneIn (score_feral_productivity : SignalCollection α → α) "cadence_high" ∧
    MonotoneIn (score_feral_productivity : SignalCollection α → α) "command_diversity_high" ∧
    MonotoneIn (score_feral_productivity : SignalCollection α → α) "late_night_orbit" ∧
    MonotoneIn (score_feral_productivity : SignalCollection α → α) "burst_pattern" ∧
    MonotoneIn (score_exhausted : SignalCollection α → α) "cadence_low" ∧
    MonotoneIn (score_exhausted : SignalCollection α → α) "typo_rate_high" ∧
    MonotoneIn (score_exhausted : SignalCollection α → α) "typo_rate_medium" ∧
    MonotoneIn (score_exhausted : SignalCollection α → α) "repeat_commands" ∧
    MonotoneIn (score_exhausted : SignalCollection α → α) "late_night_orbit" ∧
    MonotoneIn (score_methodical : SignalCollection α → α) "steady_rhythm" ∧
    MonotoneIn (score_methodical : SignalCollection α → α) "typo_rate_low" ∧
    MonotoneIn (score_methodical : SignalCollection α → α) "build_cycle" ∧
    MonotoneIn (score_methodical : SignalCollection α → α) "git_heavy" ∧
    MonotoneIn (score_chaotic_neutral : SignalCollection α → α) "command_diversity_high" ∧
    MonotoneIn (score_chaotic_neutral : SignalCollection α → α) "burst_pattern" ∧
    MonotoneIn (score_chaotic_neutral : SignalCollection α → α) "context_switching" ∧
    MonotoneIn (score_chaotic_neutral : SignalCollection α → α) "time_spread" ∧
    MonotoneIn (score_bureaucratic_zen : SignalCollection α → α) "steady_rhythm" ∧
    MonotoneIn (score_bureaucratic_zen : SignalCollection α → α) "git_heavy" ∧
    MonotoneIn (score_bureaucratic_zen : SignalCollection α → α) "typo_rate_low" ∧
    MonotoneIn (score_bureaucratic_zen : SignalCollection α → α) "weekday_bound" ∧
    MonotoneIn (score_ambient_drift : SignalCollection α → α) "command_diversity_low" ∧
    MonotoneIn (score_ambient_drift : SignalCollection α → α) "cadence_low" ∧
    MonotoneIn (score_ambient_drift : SignalCollection α → α) "status_check_loop" ∧
    MonotoneIn (score_recursive_doubt : SignalCollection α → α) "status_check_loop" ∧
    MonotoneIn (score_recursive_doubt : SignalCollection α → α) "repeat_commands" ∧
    MonotoneIn (score_recursive_doubt : SignalCollection α → α) "correction_pattern" ∧
    MonotoneIn (score_recursive_doubt : SignalCollection α → α) "git_heavy" ∧
    MonotoneIn (score_emergency_mode : SignalCollection α → α) "burst_pattern" ∧
    MonotoneIn (score_emergency_mode : SignalCollection α → α) "typo_rate_high" ∧
    MonotoneIn (score_emergency_mode : SignalCollection α → α) "correction_pattern" ∧
    MonotoneIn (score_emergency_mode : SignalCollection α → α) "cadence_high" := by
  refine ⟨?_, ?_, ?_, ?_, ?_, ?_, ?_, ?_, ?_, ?_, ?_, ?_, ?_, ?_, ?_, ?_, ?_, ?_, ?_, ?_, ?_, ?_, ?_, ?_, ?_, ?_, ?_, ?_, ?_, ?_, ?_, ?_⟩
  · intro c₁ c₂ h1n h2n hag hle
    simp only [score_feral_productivity]
    simp only [hag "command_diversity_high" (by decide), hag "late_night_orbit" (by decide), hag "burst_pattern" (by decide), hag "typo_rate_high" (by decide)]
    exact max_le_max (by linarith) le_rfl
  · intro c₁ c₂ h1n h2n hag hle
    simp only [score_feral_productivity]
    simp only [hag "cadence_high" (by decide), hag "late_night_orbit" (by decide), hag "burst_pattern" (by decide), hag "typo_rate_high" (by decide)]
    exact max_le_max (by linarith) le_rfl
  · intro c₁ c₂ h1n h2n hag hle
    simp only [score_feral_productivity]
    simp only [hag "cadence_high" (by decide), hag "command_diversity_high" (by decide), hag "burst_pattern" (by decide), hag "typo_rate_high" (by decide)]
    exact max_le_max (by linarith) le_rfl
  · intro c₁ c₂ h1n h2n hag hle
    simp only [score_feral_productivity]
    simp only [hag "cadence_high" (by decide), hag "command_diversity_high" (by decide), hag "late_night_orbit" (by decide), hag "typo_rate_high" (by decide)]
    exact max_le_max (by linarith) le_rfl
  · intro c₁ c₂ h1n h2n hag hle
    simp only [score_exhausted]
    simp only [hag "typo_rate_high" (by decide), hag "typo_rate_medium" (by decide), hag "repeat_commands" (by decide), hag "late_night_orbit" (by decide)]
    linarith
  · intro c₁ c₂ h1n h2n hag hle
    simp only [score_exhausted]
    simp only [hag "cadence_low" (by decide), hag "typo_rate_medium" (by decide), hag "repeat_commands" (by decide), hag "late_night_orbit" (by decide)]
    linarith
  · intro c₁ c₂ h1n h2n hag hle
    simp only [score_exhausted]
    simp only [hag "cadence_low" (by decide), hag "typo_rate_high" (by decide), hag "repeat_commands" (by decide), hag "late_night_orbit" (by decide)]
    linarith
  · intro c₁ c₂ h1n h2n hag hle
    simp only [score_exhausted]
    simp only [hag "cadence_low" (by decide), hag "typo_rate_high" (by decide), hag "typo_rate_medium" (by decide), hag "late_night_orbit" (by decide)]
    linarith
  · intro c₁ c₂ h1n h2n hag hle
    simp only [score_exhausted]
    simp only [hag "cadence_low" (by decide), hag "typo_rate_high" (by decide), hag "typo_rate_medium" (by decide), hag "repeat_commands" (by decide)]
    linarith
  · intro c₁ c₂ h1n h2n hag hle
    simp only [score_methodical]
    simp only [hag "typo_rate_low" (by decide), hag "build_cycle" (by decide), hag "git_heavy" (by decide), hag "burst_pattern" (by decide), hag "context_switching" (by decide)]
    exact max_le_max (by linarith) le_rfl
  · intro c₁ c₂ h1n h2n hag hle
    simp only [score_methodical]
    simp only [hag "steady_rhythm" (by decide), hag "build_cycle" (by decide), hag "git_heavy" (by decide), hag "burst_pattern" (by decide), hag "context_switching" (by decide)]
    exact max_le_max (by linarith) le_rfl
  · intro c₁ c₂ h1n h2n hag hle
    simp only [score_methodical]
    simp only [hag "steady_rhythm" (by decide), hag "typo_rate_low" (by decide), hag "git_heavy" (by decide), hag "burst_pattern" (by decide), hag "context_switching" (by decide)]
    exact max_le_max (by linarith) le_rfl
  · intro c₁ c₂ h1n h2n hag hle
    simp only [score_methodical]
    simp only [hag "steady_rhythm" (by decide), hag "typo_rate_low" (by decide), hag "build_cycle" (by decide), hag "burst_pattern" (by decide), hag "context_switching" (by decide)]
    exact max_le_max (by linarith) le_rfl
  · intro c₁ c₂ h1n h2n hag hle
    simp only [score_chaotic_neutral]
    simp only [hag "burst_pattern" (by decide), hag "context_switching" (by decide), hag "time_spread" (by decide), hag "steady_rhythm" (by decide)]
    exact max_le_max (by linarith) le_rfl
  · intro c₁ c₂ h1n h2n hag hle
    simp only [score_chaotic_neutral]
    simp only [hag "command_diversity_high" (by decide), hag "context_switching" (by decide), hag "time_spread" (by decide), hag "steady_rhythm" (by decide)]
    exact max_le_max (by linarith) le_rfl
  · intro c₁ c₂ h1n h2n hag hle
    simp only [score_chaotic_neutral]
    simp only [hag "command_diversity_high" (by decide), hag "burst_pattern" (by decide), hag "time_spread" (by decide), hag "steady_rhythm" (by decide)]
    exact max_le_max (by linarith) le_rfl
  · intro c₁ c₂ h1n h2n hag hle
    simp only [score_chaotic_neutral]
    simp only [hag "command_diversity_high" (by decide), hag "burst_pattern" (by decide), hag "context_switching" (by decide), hag "steady_rhythm" (by decide)]
    exact max_le_max (by linarith) le_rfl
  · intro c₁ c₂ h1n h2n hag hle
    simp only [score_bureaucratic_zen]
    simp only [hag "git_heavy" (by decide), hag "typo_rate_low" (by decide), hag "weekday_bound" (by decide), hag "late_night_orbit" (by decide)]
    exact max_le_max (by linarith) le_rfl
  · intro c₁ c₂ h1n h2n hag hle
    simp only [score_bureaucratic_zen]
    simp only [hag "steady_rhythm" (by decide), hag "typo_rate_low" (by decide), hag "weekday_bound" (by decide), hag "late_night_orbit" (by decide)]
    exact max_le_max (by linarith) le_rfl
  · intro c₁ c₂ h1n h2n hag hle
    simp only [score_bureaucratic_zen]
    simp only [hag "steady_rhythm" (by decide), hag "git_heavy" (by decide), hag "weekday_bound" (by decide), hag "late_night_orbit" (by decide)]
    exact max_le_max (by linarith) le_rfl
  · intro c₁ c₂ h1n h2n hag hle
    simp only [score_bureaucratic_zen]
    simp only [hag "steady_rhythm" (by decide), hag "git_heavy" (by decide), hag "typo_rate_low" (by decide), hag "late_night_orbit" (by decide)]
    exact max_le_max (by linarith) le_rfl
  · intro c₁ c₂ h1n h2n hag hle
    simp only [score_ambient_drift]
    simp only [hag "cadence_low" (by decide), hag "status_check_loop" (by decide)]
    linarith
  · intro c₁ c₂ h1n h2n hag hle
    simp only [score_ambient_drift]
    simp only [hag "command_diversity_low" (by decide), hag "status_check_loop" (by decide)]
    linarith
  · intro c₁ c₂ h1n h2n hag hle
    simp only [score_ambient_drift]
    simp only [hag "command_diversity_low" (by decide), hag "cadence_low" (by decide)]
    linarith
  · intro c₁ c₂ h1n h2n hag hle
    simp only [score_recursive_doubt]
    simp only [hag "repeat_commands" (by decide), hag "correction_pattern" (by decide), hag "git_heavy" (by decide)]
    apply min_le_min _ le_rfl
    split_ifs with hb1 hb2
    · linarith
    · exact absurd ⟨lt_of_lt_of_le hb1.1 hle, hb1.2⟩ hb2
    · linarith
    · linarith
  · intro c₁ c₂ h1n h2n hag hle
    simp only [score_recursive_doubt]
    simp only [hag "status_check_loop" (by decide), hag "correction_pattern" (by decide), hag "git_heavy" (by decide)]
    apply min_le_min _ le_rfl
    linarith
  · intro c₁ c₂ h1n h2n hag hle
    simp only [score_recursive_doubt]
    simp only [hag "status_check_loop" (by decide), hag "repeat_commands" (by decide), hag "git_heavy" (by decide)]
    apply min_le_min _ le_rfl
    linarith
  · intro c₁ c₂ h1n h2n hag hle
    simp only [score_recursive_doubt]
    simp only [hag "status_check_loop" (by decide), hag "repeat_commands" (by decide), hag "correction_pattern" (by decide)]
    apply min_le_min _ le_rfl
    split_ifs with hb1 hb2
    · linarith
    · exact absurd ⟨hb1.1, lt_of_lt_of_le hb1.2 hle⟩ hb2
    · linarith
    · linarith
  · intro c₁ c₂ h1n h2n hag hle
    have e1 := collection_score_nonneg c₂ "burst_pattern" h2n
    have e2 := collection_score_nonneg c₂ "typo_rate_high" h2n
    have e3 := collection_score_nonneg c₂ "correction_pattern" h2n
    have e4 := collection_score_nonneg c₂ "cadence_high" h2n
    simp only [score_emergency_mode, emergency_indicator_count]
    simp only [hag "typo_rate_high" (by decide), hag "correction_pattern" (by decide), hag "cadence_high" (by decide)]
    exact emergency_mono_aux _ _ _ _
      (add_le_add (add_le_add (add_le_add (ite_one_le_ite_one (fun hc => lt_of_lt_of_le hc hle)) le_rfl) le_rfl) le_rfl)
      (by linarith) (by linarith)
  · intro c₁ c₂ h1n h2n hag hle
    have e1 := collection_score_nonneg c₂ "burst_pattern" h2n
    have e2 := collection_score_nonneg c₂ "typo_rate_high" h2n
    have e3 := collection_score_nonneg c₂ "correction_pattern" h2n
    have e4 := collection_score_nonneg c₂ "cadence_high" h2n
    simp only [score_emergency_mode, emergency_indicator_count]
    simp only [hag "burst_pattern" (by decide), hag "correction_pattern" (by decide), hag "cadence_high" (by decide)]
    exact emergency_mono_aux _ _ _ _
      (add_le_add (add_le_add (add_le_add le_rfl (ite_one_le_ite_one (fun hc => lt_of_lt_of_le hc hle))) le_rfl) le_rfl)
      (by linarith) (by linarith)
  · intro c₁ c₂ h1n h2n hag hle
    have e1 := collection_score_nonneg c₂ "burst_pattern" h2n
    have e2 := collection_score_nonneg c₂ "typo_rate_high" h2n
    have e3 := collection_score_nonneg c₂ "correction_pattern" h2n
    have e4 := collection_score_nonneg c₂ "cadence_high" h2n
    simp only [score_emergency_mode, emergency_indicator_count]
    simp only [hag "burst_pattern" (by decide), hag "typo_rate_high" (by decide), hag "cadence_high" (by decide)]
    exact emergency_mono_aux _ _ _ _
      (add_le_add (add_le_add (add_le_add le_rfl le_rfl) (ite_one_le_ite_one (fun hc => lt_of_lt_of_le hc hle))) le_rfl)
      (by linarith) (by linarith)
  · intro c₁ c₂ h1n h2n hag hle
    have e1 := collection_score_nonneg c₂ "burst_pattern" h2n
    have e2 := collection_score_nonneg c₂ "typo_rate_high" h2n
    have e3 := collection_score_nonneg c₂ "correction_pattern" h2n
    have e4 := collection_score_nonneg c₂ "cadence_high" h2n
    simp only [score_emergency_mode, emergency_indicator_count]
    simp only [hag "burst_pattern" (by decide), hag "typo_rate_high" (by decide), hag "correction_pattern" (by decide)]
    exact emergency_mono_aux _ _ _ _
      (add_le_add (add_le_add (add_le_add le_rfl le_rfl) le_rfl) (ite_one_le_ite_one (fun hc => lt_of_lt_of_le hc hle)))
      (by linarith) (by linarith)

/-- C6 witness: raising `cadence_low` from 0.3 to 0.6 (all other ids
unchanged) does not decrease the Exhausted score. -/
theorem c6_witness :
    score_exhausted mono_lo_signals ≤ score_exhausted mono_hi_signals := by
  refine (@c6_monotonicity ℚ _).2.2.2.2.1 mono_lo_signals mono_hi_signals ?_ ?_ ?_ ?_
  · with_unfolding_all decide
  · with_unfolding_all decide
  · intro j hj
    have hb : (("cadence_low" : String) == j) = false := beq_eq_false_iff_ne.mpr (Ne.symm hj)
    simp [mono_lo_signals, mono_hi_signals, signals_of, SignalCollection.score,
          SignalCollection.get, Signal.new, List.find?, hb]
  · with_unfolding_all decide

/-- Membership in a conditional singleton block. -/
theorem mem_ite_singleton {β : Type} {c : Prop} [Decidable c] {x s : β}
    (hs : s ∈ (if c then [x] else [])) : s = x := by
  split_ifs at hs
  · exact List.mem_singleton.mp hs
  · exact absurd hs (List.not_mem_nil s)

/-- Membership in an if/else-if pair of singleton blocks. -/
theorem mem_ite2 {β : Type} {c₁ c₂ : Prop} [Decidable c₁] [Decidable c₂] {x y s : β}
    (hs : s ∈ (if c₁ then [x] else if c₂ then [y] else [])) : s = x ∨ s = y := by
  split_ifs at hs
  · exact Or.inl (List.mem_singleton.mp hs)
  · exact Or.inr (List.mem_singleton.mp hs)
  · exact absurd hs (List.not_mem_nil s)

/-- Membership in an if/else-if/else-if chain of singleton blocks. -/
theorem mem_ite3 {β : Type} {c₁ c₂ c₃ : Prop}
    [Decidable c₁] [Decidable c₂] [Decidable c₃] {x y z s : β}
    (hs : s ∈ (if c₁ then [x] else if c₂ then [y] else if c₃ then [z] else [])) :
    s = x ∨ s = y ∨ s = z := by
  split_ifs at hs
  · exact Or.inl (List.mem_singleton.mp hs)
  · exact Or.inr (Or.inl (List.mem_singleton.mp hs))
  · exact Or.inr (Or.inr (List.mem_singleton.mp hs))
  · exact absurd hs (List.not_mem_nil s)

/-- Every diversity-ratio signal is `command_diversity_high` or
`command_diversity_low`. -/
theorem mem_diversity_block {α : Type} [LinearOrderedField α]
    {entries : List HistoryEntry} {s : Signal α}
    (hs : s ∈ diversity_block entries) :
    s.id = "command_diversity_high" ∨ s.id = "command_diversity_low" := by
  simp only [diversity_block] at hs
  rcases mem_ite2 hs with h | h <;> rw [h]
  · exact Or.inl rfl
  · exact Or.inr rfl

/-- Every fixation signal has id `tool_fixation`. -/
theorem mem_fixation_block {α : Type} [LinearOrderedField α]
    {entries : List HistoryEntry} {s : Signal α}
    (hs : s ∈ fixation_block entries) : s.id = "tool_fixation" := by
  simp only [fixation_block] at hs
  rcases hfix : (detect_tool_fixation entries : Option (String × α)) with _ | ⟨tool, score⟩ <;>
    rw [hfix] at hs
  · exact absurd hs (List.not_mem_nil s)
  · rw [List.mem_singleton.mp hs]
    rfl

/-- Every context-switching signal has id `context_switching`. -/
theorem mem_context_block {α : Type} [LinearOrderedField α]
    {entries : List HistoryEntry} {s : Signal α}
    (hs : s ∈ context_block entries) : s.id = "context_switching" := by
  simp only [context_block] at hs
  rw [mem_ite_singleton hs]
  rfl

/-- Every editor-category signal has id `editor_focused`. -/
theorem mem_editor_block {α : Type} [LinearOrderedField α]
    {entries : List HistoryEntry} {s : Signal α}
    (hs : s ∈ editor_block entries) : s.id = "editor_focused" := by
  simp only [editor_block] at hs
  rw [mem_ite_singleton hs]
  rfl

/-- Every build-category signal has id `build_cycle`. -/
theorem mem_build_block {α : Type} [LinearOrderedField α]
    {entries : List HistoryEntry} {s : Signal α}
    (hs : s ∈ build_block entries) : s.id = "build_cycle" := by
  simp only [build_block] at hs
  rw [mem_ite_singleton hs]
  rfl

/-- Every system-category signal has id `system_admin`. -/
theorem mem_system_block {α : Type} [LinearOrderedField α]
    {entries : List HistoryEntry} {s : Signal α}
    (hs : s ∈ system_block entries) : s.id = "system_admin" := by
  simp only [system_block] at hs
  rw [mem_ite_singleton hs]
  rfl

/-- Every package-category signal has id `package_operations`. -/
theorem mem_package_block {α : Type} [LinearOrderedField α]
    {entries : List HistoryEntry} {s : Signal α}
    (hs : s ∈ package_block entries) : s.id = "package_operations" := by
  simp only [package_block] at hs
  rw [mem_ite_singleton hs]
  rfl

/-- C2 counterexample: with 8 records of which exactly one is `git`, the
git ratio is 0.125 — greater than 0.1 — yet the diversity detector emits no
`git_heavy` signal (the code's threshold is 0.15). -/
theorem c2_counterexample :
    (git_frac c2_entries : ℚ) = 1/8 ∧ ((1 : ℚ)/10 < 1/8) ∧
    (diversity_analyze c2_entries : SignalCollection ℚ).get "git_heavy" = none := by
  with_unfolding_all decide

/-- C2 (amended): for every non-empty record list, the diversity detector
emits the `git_heavy` signal if and only if the fraction of records whose
command name is in {git, gh, hub, tig, lazygit} is greater than 0.15
(not 0.1), and its score is min(ratio × 3, 1). -/
theorem c2_git_heavy_amended {α : Type} [LinearOrderedField α]
    (entries : List HistoryEntry) (hne : entries ≠ []) :
    ((diversity_analyze entries : SignalCollection α).get "git_heavy"
      = if (15/100 : α) < git_frac entries then
          some (Signal.with_note (Signal.new "git_heavy" (min (git_frac entries * 3) 1))
            (toString (category_count git_commands entries) ++ " git operations"))
        else none)
    ∧ (∀ sg : Signal α,
        (diversity_analyze entries : SignalCollection α).get "git_heavy" = some sg →
        sg.score = min (git_frac entries * 3) 1) := by
  have hemp : entries.isEmpty = false := by
    cases entries
    · exact absurd rfl hne
    · rfl
  have hdb : (diversity_block entries : List (Signal α)).find?
      (fun s => s.id == "git_heavy") = none :=
    List.find?_eq_none.mpr (fun s hs => by
      rcases mem_diversity_block hs with h | h <;> simp [h])
  have hfb : (fixation_block entries : List (Signal α)).find?
      (fun s => s.id == "git_heavy") = none :=
    List.find?_eq_none.mpr (fun s hs => by simp [mem_fixation_block hs])
  have hcb : (context_block entries : List (Signal α)).find?
      (fun s => s.id == "git_heavy") = none :=
    List.find?_eq_none.mpr (fun s hs => by simp [mem_context_block hs])
  have heb : (editor_block entries : List (Signal α)).find?
      (fun s => s.id == "git_heavy") = none :=
    List.find?_eq_none.mpr (fun s hs => by simp [mem_editor_block hs])
  have hbb : (build_block entries : List (Signal α)).find?
      (fun s => s.id == "git_heavy") = none :=
    List.find?_eq_none.mpr (fun s hs => by simp [mem_build_block hs])
  have hsb : (system_block entries : List (Signal α)).find?
      (fun s => s.id == "git_heavy") = none :=
    List.find?_eq_none.mpr (fun s hs => by simp [mem_system_block hs])
  have hpb : (package_block entries : List (Signal α)).find?
      (fun s => s.id == "git_heavy") = none :=
    List.find?_eq_none.mpr (fun s hs => by simp [mem_package_block hs])
  have hmain : (diversity_analyze entries : SignalCollection α).get "git_heavy"
      = if (15/100 : α) < git_frac entries then
          some (Signal.with_note (Signal.new "git_heavy" (min (git_frac entries * 3) 1))
            (toString (category_count git_commands entries) ++ " git operations"))
        else none := by
    unfold diversity_analyze
    rw [if_neg (by simp [hemp])]
    unfold SignalCollection.get analyze_tool_categories
    simp only [List.find?_append, hdb, hfb, hcb, heb, hbb, hsb, hpb,
      Option.none_or, Option.or_none]
    unfold git_block
    by_cases hc : (15/100 : α) < git_frac entries
    · rw [if_pos hc, if_pos hc]
      rw [List.find?_cons_of_pos _ (by rfl)]
    · rw [if_neg hc, if_neg hc]
      rfl
  refine ⟨hmain, ?_⟩
  intro sg hsg
  rw [hmain] at hsg
  by_cases hc : (15/100 : α) < git_frac entries
  · rw [if_pos hc] at hsg
    have hsg2 : sg = Signal.with_note
        (Signal.new "git_heavy" (min (git_frac entries * 3) 1))
        (toString (category_count git_commands entries) ++ " git operations") :=
      (Option.some.injEq _ _).mp hsg.symm
    rw [hsg2]
    show min (max (min (git_frac entries * 3) 1) 0) 1 = min (git_frac entries * 3) 1
    have hr : (0 : α) ≤ git_frac entries :=
      div_nonneg (Nat.cast_nonneg _) (Nat.cast_nonneg _)
    have h0 : (0 : α) ≤ min (git_frac entries * 3) 1 :=
      le_min (by nlinarith) zero_le_one
    rw [max_eq_left h0, min_eq_left (min_le_right _ _)]
  · rw [if_neg hc] at hsg
    exact absurd hsg (by simp)

/-- C2 witness: with 2 git records out of 4 the ratio 0.5 exceeds 0.15 and
the characterization applies. -/
theorem c2_witness :
    ((diversity_analyze c2_git_entries : SignalCollection ℚ).get "git_heavy"
      = if (15/100 : ℚ) < git_frac c2_git_entries then
          some (Signal.with_note
            (Signal.new "git_heavy" (min (git_frac c2_git_entries * 3) 1))
            (toString (category_count git_commands c2_git_entries) ++ " git operations"))
        else none)
    ∧ ((15 : ℚ)/100 < git_frac c2_git_entries) :=
  ⟨(c2_git_heavy_amended c2_git_entries (by with_unfolding_all decide)).1,
   by with_unfolding_all decide⟩

/-- Every late-night signal has id `late_night_orbit`. -/
theorem mem_late_block {α : Type} [LinearOrderedField α]
    {wts : List HistoryEntry} {s : Signal α}
    (hs : s ∈ late_block wts) : s.id = "late_night_orbit" := by
  simp only [late_block] at hs
  rw [mem_ite_singleton hs]
  rfl

/-- Every early-morning signal has id `early_morning_surge`. -/
theorem mem_early_block {α : Type} [LinearOrderedField α]
    {wts : List HistoryEntry} {s : Signal α}
    (hs : s ∈ early_block wts) : s.id = "early_morning_surge" := by
  simp only [early_block] at hs
  rw [mem_ite_singleton hs]
  rfl

/-- Every lunch-void signal has id `lunch_void`. -/
theorem mem_lunch_block {α : Type} [LinearOrderedField α]
    {wts : List HistoryEntry} {s : Signal α}
    (hs : s ∈ lunch_block wts) : s.id = "lunch_void" := by
  simp only [lunch_block] at hs
  rw [mem_ite_singleton hs]
  rfl

/-- Every peak-hours signal has id `peak_hours`. -/
theorem mem_peak_block {α : Type} [LinearOrderedField α]
    {wts : List HistoryEntry} {s : Signal α}
    (hs : s ∈ peak_block wts) : s.id = "peak_hours" := by
  simp only [peak_block] at hs
  rw [mem_ite_singleton hs]
  rfl

/-- Every concentration signal is `time_concentrated` or `time_spread`. -/
theorem mem_concentration_block {α : Type} [LinearOrderedField α]
    {wts : List HistoryEntry} {s : Signal α}
    (hs : s ∈ concentration_block wts) :
    s.id = "time_concentrated" ∨ s.id = "time_spread" := by
  simp only [concentration_block] at hs
  rcases mem_ite2 hs with h | h <;> rw [h]
  · exact Or.inl rfl
  · exact Or.inr rfl

/-- Every hour-distribution signal is `peak_hours`, `time_concentrated` or
`time_spread`. -/
theorem mem_hour_blocks {α : Type} [LinearOrderedField α]
    {wts : List HistoryEntry} {s : Signal α}
    (hs : s ∈ analyze_hour_distribution wts) :
    s.id = "peak_hours" ∨ s.id = "time_concentrated" ∨ s.id = "time_spread" := by
  simp only [analyze_hour_distribution] at hs
  split_ifs at hs
  · exact absurd hs (List.not_mem_nil s)
  · rcases List.mem_append.mp hs with h | h
    · exact Or.inl (mem_peak_block h)
    · exact Or.inr (mem_concentration_block h)

/-- C10: the temporal detector never emits both `weekend_warrior` and
`weekday_bound`: their emission conditions are mutually exclusive branches
of one if/else-if, so at most one such signal appears. -/
theorem c10_weekend_exclusive {α : Type} [LinearOrderedField α]
    (entries : List HistoryEntry) :
    ((temporal_analyze entries : SignalCollection α).signals.filter
      (fun s => s.id == "weekend_warrior" || s.id == "weekday_bound")).length ≤ 1 := by
  unfold temporal_analyze
  split_ifs
  · simp
  · simp
  · simp only [List.filter_append, List.length_append]
    have hl : (late_block (with_ts entries) : List (Signal α)).filter
        (fun s => s.id == "weekend_warrior" || s.id == "weekday_bound") = [] :=
      List.filter_eq_nil_iff.mpr (fun s hs => by simp [mem_late_block hs])
    have he : (early_block (with_ts entries) : List (Signal α)).filter
        (fun s => s.id == "weekend_warrior" || s.id == "weekday_bound") = [] :=
      List.filter_eq_nil_iff.mpr (fun s hs => by simp [mem_early_block hs])
    have hlu : (lunch_block (with_ts entries) : List (Signal α)).filter
        (fun s => s.id == "weekend_warrior" || s.id == "weekday_bound") = [] :=
      List.filter_eq_nil_iff.mpr (fun s hs => by simp [mem_lunch_block hs])
    have hh : (analyze_hour_distribution (with_ts entries) : List (Signal α)).filter
        (fun s => s.id == "weekend_warrior" || s.id == "weekday_bound") = [] :=
      List.filter_eq_nil_iff.mpr (fun s hs => by
        rcases mem_hour_blocks hs with h | h | h <;> simp [h])
    have hw : ((weekend_block (with_ts entries) : List (Signal α)).filter
        (fun s => s.id == "weekend_warrior" || s.id == "weekday_bound")).length ≤ 1 := by
      unfold weekend_block
      split_ifs
      · exact (List.length_filter_le _ _).trans (by simp)
      · exact (List.length_filter_le _ _).trans (by simp)
      · simp
    rw [hl, he, hlu, hh]
    simpa using hw

/-- Lookup in the empty collection defaults to 0. -/
theorem score_empty {α : Type} [LinearOrderedField α] (id : String) :
    (⟨[]⟩ : SignalCollection α).score id = 0 := rfl

/-- Classifying the empty collection yields the Neutral mood with
confidence 0 and the fixed note. -/
theorem detect_mood_empty {α : Type} [LinearOrderedField α] :
    detect_mood (⟨[]⟩ : SignalCollection α)
      = ⟨MoodId.Neutral, 0, ["Insufficient signal strength for classification"]⟩ := by
  have h1 : score_feral_productivity (⟨[]⟩ : SignalCollection α) = 0 := by
    simp [score_feral_productivity, score_empty]
  have h2 : score_exhausted (⟨[]⟩ : SignalCollection α) = 0 := by
    simp [score_exhausted, score_empty]
  have h3 : score_methodical (⟨[]⟩ : SignalCollection α) = 0 := by
    simp [score_methodical, score_empty]
  have h4 : score_chaotic_neutral (⟨[]⟩ : SignalCollection α) = 0 := by
    simp [score_chaotic_neutral, score_empty]
  have h5 : score_bureaucratic_zen (⟨[]⟩ : SignalCollection α) = 0 := by
    simp [score_bureaucratic_zen, score_empty]
  have h6 : score_ambient_drift (⟨[]⟩ : SignalCollection α) = 0 := by
    simp [score_ambient_drift, score_empty]
  have h7 : score_recursive_doubt (⟨[]⟩ : SignalCollection α) = 0 := by
    simp only [score_recursive_doubt, score_empty, zero_mul, add_zero, zero_add]
    rw [if_neg (by norm_num)]
    rw [min_eq_left zero_le_one]
  have h8 : score_emergency_mode (⟨[]⟩ : SignalCollection α) = 0 := by
    simp only [score_emergency_mode, emergency_indicator_count, score_empty]
    rw [if_pos (by norm_num)]
  have hb : best_mood (⟨[]⟩ : SignalCollection α) = (MoodId.EmergencyMode, 0) := by
    have e : best_mood (⟨[]⟩ : SignalCollection α) =
        ([(MoodId.Exhausted, score_exhausted (⟨[]⟩ : SignalCollection α)),
          (MoodId.Methodical, score_methodical (⟨[]⟩ : SignalCollection α)),
          (MoodId.ChaoticNeutral, score_chaotic_neutral (⟨[]⟩ : SignalCollection α)),
          (MoodId.BureaucraticZen, score_bureaucratic_zen (⟨[]⟩ : SignalCollection α)),
          (MoodId.AmbientDrift, score_ambient_drift (⟨[]⟩ : SignalCollection α)),
          (MoodId.RecursiveDoubt, score_recursive_doubt (⟨[]⟩ : SignalCollection α)),
          (MoodId.EmergencyMode, score_emergency_mode (⟨[]⟩ : SignalCollection α))]).foldl
          mood_step (MoodId.FeralProductivity, score_feral_productivity (⟨[]⟩ : SignalCollection α)) :=
      rfl
    rw [e, h1, h2, h3, h4, h5, h6, h7, h8]
    simp [mood_step, lt_self_iff_false]
  unfold detect_mood
  rw [hb]
  rw [if_pos (by norm_num)]
  show Mood.with_note (Mood.new MoodId.Neutral 0) _ = _
  unfold Mood.new Mood.with_note
  rw [max_self, min_eq_left zero_le_one]
  rfl

/-- C7: on the empty record list every detector and the top-level `analyze`
return an empty collection without failing, and classifying the resulting
empty collection yields the Neutral mood with confidence exactly 0 and the
"insufficient signal strength" note. -/
theorem c7_empty_pipeline :
    frequency_analyze sqrtQR [] = (⟨[]⟩ : SignalCollection ℝ) ∧
    temporal_analyze [] = (⟨[]⟩ : SignalCollection ℝ) ∧
    errors_analyze [] = (⟨[]⟩ : SignalCollection ℝ) ∧
    diversity_analyze [] = (⟨[]⟩ : SignalCollection ℝ) ∧
    signals_analyze sqrtQR [] = (⟨[]⟩ : SignalCollection ℝ) ∧
    detect_mood (⟨[]⟩ : SignalCollection ℝ)
      = ⟨MoodId.Neutral, 0, ["Insufficient signal strength for classification"]⟩ :=
  ⟨rfl, rfl, rfl, rfl, rfl, detect_mood_empty⟩

/-- Every high-cadence signal has id `cadence_high`. -/
theorem mem_cadence_high_block {α : Type} [LinearOrderedField α]
    {entries : List HistoryEntry} {s : Signal α}
    (hs : s ∈ cadence_high_block entries) : s.id = "cadence_high" := by
  simp only [cadence_high_block] at hs
  rw [mem_ite_singleton hs]
  rfl

/-- Every low-cadence signal has id `cadence_low`. -/
theorem mem_cadence_low_block {α : Type} [LinearOrderedField α]
    {entries : List HistoryEntry} {s : Signal α}
    (hs : s ∈ cadence_low_block entries) : s.id = "cadence_low" := by
  simp only [cadence_low_block] at hs
  rw [mem_ite_singleton hs]
  rfl

/-- Every burst signal has id `burst_pattern`. -/
theorem mem_burst_block {α : Type} [LinearOrderedField α]
    {entries : List HistoryEntry} {s : Signal α}
    (hs : s ∈ burst_block entries) : s.id = "burst_pattern" := by
  simp only [burst_block] at hs
  rw [mem_ite_singleton hs]
  rfl

/-- C3 (amended): when the record list has at least 5 timestamps AND at
least 3 adjacent gaps strictly between 0 and 3600 seconds, the
steady-rhythm score is exactly 1 − min(cv, 1) with
cv = sqrt(variance)/mean over those gaps, and the frequency detector emits
the `steady_rhythm` signal exactly when that score exceeds 0.5.  (The code
requires 5 timestamped records; 3 qualifying gaps alone do not suffice.) -/
theorem c3_steady_rhythm_amended (entries : List HistoryEntry)
    (h5 : 5 ≤ (sorted_times entries).length)
    (h3 : 3 ≤ (rhythm_intervals entries).length) :
    (detect_steady_rhythm sqrtQR entries
      = 1 - min (sqrtQR (rhythm_variance entries) / ((rhythm_mean entries : ℚ) : ℝ)) 1)
    ∧ ((frequency_analyze sqrtQR entries).get "steady_rhythm"
        = if 1/2 < detect_steady_rhythm sqrtQR entries then
            some (Signal.new "steady_rhythm" (detect_steady_rhythm sqrtQR entries))
          else none) := by
  constructor
  · unfold detect_steady_rhythm
    rw [if_neg (by omega), if_neg (by omega)]
    have hpos : ∀ i ∈ rhythm_intervals entries, 0 < i := by
      intro i hi
      have hp := (List.mem_filter.mp hi).2
      simp only [Bool.and_eq_true, decide_eq_true_eq] at hp
      exact hp.1
    have hne : rhythm_intervals entries ≠ [] := by
      intro h
      rw [h] at h3
      simp at h3
    have hsum : 0 < (rhythm_intervals entries).sum := List.sum_pos _ hpos hne
    have hlen : (0 : ℚ) < ((rhythm_intervals entries).length : ℚ) := by
      have : 0 < (rhythm_intervals entries).length := by omega
      exact_mod_cast this
    have hmean : 0 < rhythm_mean entries := div_pos hsum hlen
    have hcv : (0 : ℝ) ≤ sqrtQR (rhythm_variance entries) / ((rhythm_mean entries : ℚ) : ℝ) := by
      apply div_nonneg (Real.sqrt_nonneg _)
      exact_mod_cast hmean.le
    have h0le : (0 : ℝ) ≤ 1 - min (sqrtQR (rhythm_variance entries)
        / ((rhythm_mean entries : ℚ) : ℝ)) 1 :=
      sub_nonneg.mpr (min_le_right _ _)
    have h1le : 1 - min (sqrtQR (rhythm_variance entries)
        / ((rhythm_mean entries : ℚ) : ℝ)) 1 ≤ 1 :=
      sub_le_self _ (le_min hcv zero_le_one)
    show min (max (1 - min (sqrtQR (rhythm_variance entries)
        / ((rhythm_mean entries : ℚ) : ℝ)) 1) 0) 1
      = 1 - min (sqrtQR (rhythm_variance entries) / ((rhythm_mean entries : ℚ) : ℝ)) 1
    rw [max_eq_left h0le, min_eq_left h1le]
  · have hene : entries.isEmpty = false := by
      cases entries with
      | nil => simp [sorted_times, entry_times, sortQ] at h5
      | cons x xs => rfl
    have hch : (cadence_high_block entries : List (Signal ℝ)).find?
        (fun s => s.id == "steady_rhythm") = none :=
      List.find?_eq_none.mpr (fun s hs => by simp [mem_cadence_high_block hs])
    have hcl : (cadence_low_block entries : List (Signal ℝ)).find?
        (fun s => s.id == "steady_rhythm") = none :=
      List.find?_eq_none.mpr (fun s hs => by simp [mem_cadence_low_block hs])
    have hbb : (burst_block entries : List (Signal ℝ)).find?
        (fun s => s.id == "steady_rhythm") = none :=
      List.find?_eq_none.mpr (fun s hs => by simp [mem_burst_block hs])
    unfold frequency_analyze
    rw [if_neg (by simp [hene])]
    unfold SignalCollection.get
    simp only [List.find?_append, hch, hcl, hbb, Option.none_or]
    unfold rhythm_block
    by_cases hr : (1 : ℝ)/2 < detect_steady_rhythm sqrtQR entries
    · rw [if_pos hr, if_pos hr, List.find?_cons_of_pos _ (by rfl)]
    · rw [if_neg hr, if_neg hr]
      rfl

/-- C3 counterexample: 4 timestamped records at 0, 10, 20, 30 seconds have
exactly 3 adjacent gaps in (0, 3600), yet no `steady_rhythm` signal is
emitted — the code first requires at least 5 timestamps. -/
theorem c3_counterexample :
    (sorted_times c3_entries).length = 4 ∧
    (rhythm_intervals c3_entries).length = 3 ∧
    (∀ i ∈ rhythm_intervals c3_entries, 0 < i ∧ i < 3600) ∧
    (frequency_analyze sqrtQR c3_entries).get "steady_rhythm" = none := by
  refine ⟨by with_unfolding_all decide, by with_unfolding_all decide,
    by with_unfolding_all decide, ?_⟩
  have hch : (cadence_high_block c3_entries : List (Signal ℝ)) = [] := by
    unfold cadence_high_block
    rw [if_neg (by with_unfolding_all decide)]
  have hcl : (cadence_low_block c3_entries : List (Signal ℝ)) = [] := by
    unfold cadence_low_block
    rw [if_neg (by with_unfolding_all decide)]
  have hbb : (burst_block c3_entries : List (Signal ℝ)) = [] := by
    unfold burst_block
    rw [if_neg (by with_unfolding_all decide)]
  have hrs : detect_steady_rhythm sqrtQR c3_entries = 0 := by
    unfold detect_steady_rhythm
    rw [if_pos (by with_unfolding_all decide)]
  have hrb : (rhythm_block sqrtQR c3_entries : List (Signal ℝ)) = [] := by
    unfold rhythm_block
    rw [if_neg (by rw [hrs]; norm_num)]
  unfold frequency_analyze
  rw [if_neg (by with_unfolding_all decide), hch, hcl, hbb, hrb]
  rfl

/-- C3 witness: 5 records at a steady 30-second interval give variance 0,
so the score is exactly 1 and the signal is emitted with score 1. -/
theorem c3_witness :
    (5 ≤ (sorted_times c3_steady_entries).length) ∧
    (3 ≤ (rhythm_intervals c3_steady_entries).length) ∧
    detect_steady_rhythm sqrtQR c3_steady_entries = 1 ∧
    (frequency_analyze sqrtQR c3_steady_entries).get "steady_rhythm"
      = some (Signal.new "steady_rhythm" 1) := by
  have h5 : 5 ≤ (sorted_times c3_steady_entries).length := by with_unfolding_all decide
  have h3 : 3 ≤ (rhythm_intervals c3_steady_entries).length := by with_unfolding_all decide
  obtain ⟨hval, hget⟩ := c3_steady_rhythm_amended c3_steady_entries h5 h3
  have hvar : rhythm_variance c3_steady_entries = 0 := by with_unfolding_all decide
  have hmean : rhythm_mean c3_steady_entries = 30 := by with_unfolding_all decide
  have hscore : detect_steady_rhythm sqrtQR c3_steady_entries = 1 := by
    rw [hval, hvar, hmean]
    have hz : sqrtQR 0 = 0 := by simp [sqrtQR]
    rw [hz, zero_div, min_eq_left zero_le_one, sub_zero]
  refine ⟨h5, h3, hscore, ?_⟩
  rw [hget, if_pos (by rw [hscore]; norm_num), hscore]
